import Mathlib

/-
  Verification of the codeGuardian static-analysis engine.

  The Python sources are embedded shallowly: line-oriented regex rules become
  executable character-list scanners, the ast.NodeVisitor subclasses become
  structurally recursive functions over an embedded Python AST, floating-point
  scores become exact rationals, and fallible operations (file reads, parses)
  become Except values.
-/

namespace CodeGuardian

/-- Severity levels of a finding, ordered low < medium < high < critical
(models the severity strings used throughout the code base). -/
inductive Severity
  | low
  | medium
  | high
  | critical
deriving DecidableEq, BEq

/-- The ordinal used by the orchestrator: analyzer.py line 65,
severity_levels = (low 0, medium 1, high 2, critical 3). -/
def Severity.level : Severity → Nat
  | .low => 0
  | .medium => 1
  | .high => 2
  | .critical => 3

/-- Finding categories appearing in the code base. -/
inductive Category
  | security
  | performance
  | maintainability
  | analysis
deriving DecidableEq, BEq

/-- Embeds the Issue dataclass from models.py (floats as rationals). -/
structure Issue where
  severity : Severity
  category : Category
  message : String
  filePath : String
  lineNumber : Nat
  column : Nat := 0
  ruleId : String := ""
  confidence : ℚ := 1
  sourceSnippet : String := ""
  suggestion : String := ""
deriving DecidableEq, BEq

/-- Number of issues of a given severity in a list
(embeds the len of list comprehensions filtering on severity). -/
def countSev (issues : List Issue) (s : Severity) : Nat :=
  (issues.filter (fun i => i.severity == s)).length

/-- Characters stripped by Python str.strip and counted as whitespace by
regex class backslash-s (space, tab, newline, carriage return, vertical tab,
form feed). -/
def pyIsSpace (c : Char) : Bool :=
  c == ' ' || c == '\t' || c == '\n' || c == '\x0d' || c == '\x0b' || c == '\x0c'

/-- Word characters of the regex class backslash-w (ASCII model). -/
def isWordChar (c : Char) : Bool :=
  c.isAlphanum || c == '_'

/-- Lower-cases a character list (models re.IGNORECASE by case folding). -/
def lowerChars (cs : List Char) : List Char :=
  cs.map Char.toLower

/-- Embeds Python str.strip: drop leading and trailing whitespace. -/
def pyStrip (s : String) : String :=
  String.mk ((((s.toList.dropWhile pyIsSpace).reverse).dropWhile pyIsSpace).reverse)

/-- One element of a regex of the restricted shape used by the performance and
maintainability rule tables: a literal run, a dot-star (any characters except
newline), or a whitespace-star. -/
inductive PatElem
  | lit (s : List Char)
  | anyStar
  | wsStar
deriving DecidableEq

/-- Matches a restricted regex against the start of a character list
(backtracking over the two star forms; dot does not match newline). Every
recursive call strictly decreases twice the text length plus the pattern
length, so the fuel argument supplied by matchHere below is never
exhausted. -/
def matchHereFuel : Nat → List PatElem → List Char → Bool
  | 0, _, _ => false
  | _ + 1, [], _ => true
  | fuel + 1, .lit s :: ps, cs =>
    s.isPrefixOf cs && matchHereFuel fuel ps (cs.drop s.length)
  | fuel + 1, .anyStar :: ps, cs =>
    matchHereFuel fuel ps cs ||
      (match cs with
       | [] => false
       | c :: rest => c != '\n' && matchHereFuel fuel (.anyStar :: ps) rest)
  | fuel + 1, .wsStar :: ps, cs =>
    matchHereFuel fuel ps cs ||
      (match cs with
       | [] => false
       | c :: rest => pyIsSpace c && matchHereFuel fuel (.wsStar :: ps) rest)

/-- Matches a restricted regex at the start of the text, with enough fuel for
the whole backtracking search. -/
def matchHere (ps : List PatElem) (cs : List Char) : Bool :=
  matchHereFuel (2 * cs.length + ps.length + 1) ps cs

/-- Embeds re.search for the restricted regex shape: try every start
position. -/
def reSearch (ps : List PatElem) : List Char → Bool
  | [] => matchHere ps []
  | c :: rest => matchHere ps (c :: rest) || reSearch ps rest

/-- Case-insensitive search on a line (models re.search with re.IGNORECASE;
the literal elements of the pattern are stored lower-case). -/
def reSearchCI (ps : List PatElem) (line : String) : Bool :=
  reSearch ps (lowerChars line.toList)

/-- Scans a text for a literal needle at any position. -/
def subSearch (needle : List Char) : List Char → Bool
  | [] => needle.isPrefixOf []
  | c :: rest => needle.isPrefixOf (c :: rest) || subSearch needle rest

/-- Substring test, embedding the Python expression sub in s. -/
def containsSub (sub : String) (s : String) : Bool :=
  subSearch sub.toList s.toList

/-- Number of occurrences of a character in a string
(embeds Python str.count for a single-character argument). -/
def countChar (c : Char) (s : String) : Nat :=
  (s.toList.filter (fun d => d == c)).length

/-- Embeds the Python builtin min on two floats. -/
def pyMin (a b : ℚ) : ℚ :=
  if a ≤ b then a else b

/-- Embeds the Python builtin max on two floats. -/
def pyMax (a b : ℚ) : ℚ :=
  if a ≤ b then b else a

/-- Embeds Python str.endswith for a single suffix. -/
def pyEndsWith (s suffix : String) : Bool :=
  suffix.toList.isSuffixOf s.toList

/-- True when the list starts with a run of at least two digits followed by a
non-word character or the end of the line (the trailing word boundary of the
magic-number regex of maintainability.py line 78). -/
def digitRunOk (cs : List Char) : Bool :=
  let run := cs.takeWhile Char.isDigit
  decide (2 ≤ run.length) &&
    (match cs.drop run.length with
     | [] => true
     | d :: _ => !isWordChar d)

/-- Scans for a bare integer of at least two digits delimited by word
boundaries, carrying whether the previous character was a word character. -/
def scanMagic : Bool → List Char → Bool
  | _, [] => false
  | prevIsWord, c :: rest =>
    (!prevIsWord && c.isDigit && digitRunOk (c :: rest)) || scanMagic (isWordChar c) rest

/-- Embeds re.search of the magic-number regex (word boundary, two or more
digits, word boundary) on one line. -/
def hasMagicNumber (line : String) : Bool :=
  scanMagic false line.toList

/-- Embeds re.search of the comment-digit regex of maintainability.py line 80
(a hash mark with any digit somewhere after it on the same line). -/
def digitAfterHash : List Char → Bool
  | [] => false
  | c :: rest => (c == '#' && rest.any Char.isDigit) || digitAfterHash rest

/-- The four comment markers of the TODO regex, lower-case. -/
def todoWords : List (List Char) :=
  ["todo".toList, "fixme".toList, "hack".toList, "xxx".toList]

/-- True when the list starts with one of the TODO markers (case-insensitive)
followed by a word boundary. -/
def todoAt (cs : List Char) : Bool :=
  todoWords.any fun w =>
    w.isPrefixOf (lowerChars cs) &&
      (match cs.drop w.length with
       | [] => true
       | d :: _ => !isWordChar d)

/-- Scans for a word-boundary-delimited TODO marker, carrying whether the
previous character was a word character. -/
def todoSearchFrom : Bool → List Char → Bool
  | _, [] => false
  | prevIsWord, c :: rest =>
    (!prevIsWord && todoAt (c :: rest)) || todoSearchFrom (isWordChar c) rest

/-- Embeds re.search with re.IGNORECASE of the TODO comment regex of
maintainability.py line 92: a hash mark followed somewhere by a
boundary-delimited TODO, FIXME, HACK or XXX. -/
def hasTodoComment : List Char → Bool
  | [] => false
  | c :: rest => (c == '#' && todoSearchFrom false rest) || hasTodoComment rest

/-- Length of the leading whitespace of a line, embedding the Python
expression len(line) - len(line.lstrip()). -/
def leadingWs (line : String) : Nat :=
  (line.toList.takeWhile pyIsSpace).length

namespace MaintainabilityScorer

/-- The long-line finding of maintainability.py lines 54-63. -/
def longLineIssue (fp : String) (ln : Nat) (len : Nat) : Issue :=
  { severity := .low, category := .maintainability,
    message := "Line too long (" ++ toString len ++ " characters)",
    filePath := fp, lineNumber := ln,
    ruleId := "maintainability.line_length",
    suggestion := "Break long lines into multiple lines for better readability." }

/-- The too-many-parameters finding of maintainability.py lines 66-75. -/
def paramsLineIssue (fp : String) (ln : Nat) : Issue :=
  { severity := .medium, category := .maintainability,
    message := "Function has too many parameters",
    filePath := fp, lineNumber := ln,
    ruleId := "maintainability.too_many_params",
    suggestion := "Consider using a configuration object or breaking the function apart." }

/-- The magic-number finding of maintainability.py lines 78-89. -/
def magicNumberIssue (fp : String) (ln : Nat) : Issue :=
  { severity := .low, category := .maintainability,
    message := "Magic number detected - consider using named constants",
    filePath := fp, lineNumber := ln,
    ruleId := "maintainability.magic_number",
    suggestion := "Replace magic numbers with named constants." }

/-- The TODO-comment finding of maintainability.py lines 92-101. -/
def todoCommentIssue (fp : String) (ln : Nat) : Issue :=
  { severity := .low, category := .maintainability,
    message := "TODO/FIXME comment found",
    filePath := fp, lineNumber := ln,
    ruleId := "maintainability.todo_comment",
    suggestion := "Address TODO/FIXME comments before deployment." }

/-- The deep-nesting finding of maintainability.py lines 104-114. -/
def deepNestingIssue (fp : String) (ln : Nat) : Issue :=
  { severity := .medium, category := .maintainability,
    message := "Code is too deeply nested",
    filePath := fp, lineNumber := ln,
    ruleId := "maintainability.deep_nesting",
    suggestion := "Consider extracting nested code into separate functions." }

/-- The five per-line checks of MaintainabilityScorer._analyze_patterns on one
line, in source order: long line, too many parameters, magic number,
TODO comment, deep nesting. -/
def lineIssues (fp : String) (ln : Nat) (line : String) : List Issue :=
  (if 120 < line.length then [longLineIssue fp ln line.length] else []) ++
  (if containsSub "def " line && 5 < countChar ',' line then [paramsLineIssue fp ln] else []) ++
  (if hasMagicNumber line && !containsSub "def " line && !digitAfterHash line.toList then
    [magicNumberIssue fp ln] else []) ++
  (if hasTodoComment line.toList then [todoCommentIssue fp ln] else []) ++
  (if 24 < leadingWs line then [deepNestingIssue fp ln] else [])

/-- Embeds MaintainabilityScorer._analyze_patterns (maintainability.py lines
46-116); content is represented by its list of lines (content.splitlines). -/
def _analyze_patterns (fp : String) (lines : List String) : List Issue :=
  (List.enumFrom 1 lines).flatMap fun p => lineIssues fp p.1 p.2

end MaintainabilityScorer

namespace PerformanceAnalyzer

/-- The inefficient-loop regex table of performance.py lines 54-59, with the
literal parts lower-cased (the search is case-insensitive). -/
def inefficient_patterns : List (List PatElem × String × Severity) :=
  [([.lit "for".toList, .anyStar, .lit "in".toList, .anyStar, .lit "range(len(".toList],
    "Inefficient loop - use enumerate() or direct iteration", .medium),
   ([.lit "while".toList, .anyStar, .lit "len(".toList, .anyStar, .lit ")".toList, .wsStar,
     .lit ">".toList],
    "Inefficient while loop checking length", .medium),
   ([.lit ".append(".toList, .anyStar, .lit ")".toList, .wsStar, .lit "\n".toList, .anyStar,
     .lit "for".toList, .anyStar, .lit "in".toList],
    "List comprehension may be more efficient", .low),
   ([.lit "list(filter(".toList, .anyStar, .lit "list(map(".toList],
    "Nested list comprehension may be more efficient", .medium)]

/-- The memory-usage regex table of performance.py lines 62-67. -/
def memory_patterns : List (List PatElem × String × Severity) :=
  [([.anyStar, .lit "+=".toList, .anyStar, .lit "[".toList, .anyStar, .lit "]".toList],
    "Potential memory inefficiency with list concatenation", .medium),
   ([.anyStar, .lit ".copy()".toList, .anyStar, .lit "in".toList, .anyStar, .lit "loop".toList],
    "Copying in loop can cause memory issues", .high),
   ([.lit "pd.concat".toList, .anyStar, .lit "in".toList, .anyStar, .lit "for".toList],
    "Inefficient pandas concatenation in loop", .high),
   ([.lit "np.concatenate".toList, .anyStar, .lit "for".toList, .anyStar, .lit "in".toList],
    "Inefficient numpy concatenation in loop", .medium)]

/-- The database and IO regex table of performance.py lines 70-75. -/
def io_patterns : List (List PatElem × String × Severity) :=
  [([.lit ".execute(".toList, .anyStar, .lit "for".toList, .anyStar, .lit "in".toList],
    "Database queries in loop - consider batch operations", .high),
   ([.lit "open(".toList, .anyStar, .lit "for".toList, .anyStar, .lit "in".toList],
    "File operations in loop can be inefficient", .medium),
   ([.lit "requests.get(".toList, .anyStar, .lit "for".toList],
    "HTTP requests in loop without session reuse", .high),
   ([.lit "time.sleep(".toList, .anyStar, .lit "for".toList],
    "Sleep in loop may indicate inefficient design", .low)]

/-- The concatenation of the three pattern families in source order
(performance.py lines 77-81). -/
def all_patterns : List (List PatElem × String × Severity) :=
  inefficient_patterns ++ memory_patterns ++ io_patterns

/-- Embeds PerformanceAnalyzer._get_performance_suggestion (performance.py
lines 153-169): first matching key of the suggestion table, in insertion
order, compared case-insensitively. -/
def _get_performance_suggestion (description : String) : String :=
  let d := String.mk (lowerChars description.toList)
  if containsSub "inefficient loop" d then
    "Use enumerate() or iterate directly over the collection."
  else if containsSub "list comprehension" d then
    "Consider using list comprehension for better performance."
  else if containsSub "concatenation" d then
    "Use join() for string concatenation or extend() for lists."
  else if containsSub "database queries" d then
    "Use batch operations or bulk inserts instead of individual queries."
  else if containsSub "http requests" d then
    "Use session objects to reuse connections."
  else if containsSub "dom queries" d then
    "Cache DOM elements outside of loops."
  else if containsSub "memory inefficiency" d then
    "Consider using generators or processing data in chunks."
  else
    "Review this code for potential performance improvements."

/-- Embeds PerformanceAnalyzer._analyze_patterns (performance.py lines
48-97): every pattern is tried on every line, in order. -/
def _analyze_patterns (fp : String) (lines : List String) : List Issue :=
  (List.enumFrom 1 lines).flatMap fun p =>
    all_patterns.flatMap fun q =>
      if reSearchCI q.1 p.2 then
        [{ severity := q.2.2, category := .performance, message := q.2.1,
           filePath := fp, lineNumber := p.1,
           ruleId := "performance.pattern",
           sourceSnippet := pyStrip p.2,
           suggestion := _get_performance_suggestion q.2.1 }]
      else []

/-- The JavaScript and TypeScript regex table of performance.py lines
130-136, literal parts lower-cased. -/
def js_patterns : List (List PatElem × String × Severity) :=
  [([.lit "document.getelementbyid".toList, .anyStar, .lit "in".toList, .anyStar,
     .lit "for".toList],
    "DOM queries in loop are inefficient", .high),
   ([.lit ".innerhtml".toList, .wsStar, .lit "+=".toList],
    "innerHTML concatenation causes reflow", .medium),
   ([.lit "new".toList, .anyStar, .lit "regexp".toList, .anyStar, .lit "in".toList, .anyStar,
     .lit "for".toList],
    "RegExp creation in loop is inefficient", .medium),
   ([.lit "json.parse".toList, .anyStar, .lit "json.stringify".toList],
    "Deep clone via JSON is inefficient", .medium),
   ([.lit "addeventlistener".toList, .anyStar, .lit "in".toList, .anyStar, .lit "for".toList],
    "Event listeners in loop without cleanup", .high)]

/-- Embeds PerformanceAnalyzer._analyze_javascript_patterns (performance.py
lines 125-151). -/
def _analyze_javascript_patterns (fp : String) (lines : List String) : List Issue :=
  (List.enumFrom 1 lines).flatMap fun p =>
    js_patterns.flatMap fun q =>
      if reSearchCI q.1 p.2 then
        [{ severity := q.2.2, category := .performance, message := q.2.1,
           filePath := fp, lineNumber := p.1,
           ruleId := "performance.javascript",
           sourceSnippet := pyStrip p.2 }]
      else []

end PerformanceAnalyzer

/-- An embedded fragment of the Python abstract syntax tree covering the node
kinds the two visitors dispatch on, plus the generic statement and expression
shapes they traverse through. Line numbers are carried where a visitor reads
node.lineno; functionDef also carries node.end_lineno and the parameter names
(args.args); name carries whether its context is Store. -/
inductive PyNode
  | module (body : List PyNode)
  | functionDef (name : String) (lineno endLineno : Nat) (args : List String)
      (body : List PyNode)
  | classDef (name : String) (lineno : Nat) (body : List PyNode)
  | forStmt (lineno : Nat) (target iter : PyNode) (body : List PyNode)
  | whileStmt (lineno : Nat) (test : PyNode) (body : List PyNode)
  | ifStmt (lineno : Nat) (test : PyNode) (body orelse : List PyNode)
  | tryStmt (lineno : Nat) (body handlers finalBody : List PyNode)
  | withStmt (lineno : Nat) (ctxExpr : PyNode) (body : List PyNode)
  | assign (lineno : Nat) (targets : List PyNode) (value : PyNode)
  | ret (lineno : Nat) (value : Option PyNode)
  | exprStmt (value : PyNode)
  | pass
  | name (lineno : Nat) (id : String) (isStore : Bool)
  | attrExpr (lineno : Nat) (value : PyNode) (attrName : String)
  | call (lineno : Nat) (func : PyNode) (args : List PyNode)
  | boolOp (lineno : Nat) (values : List PyNode)
  | listComp (lineno : Nat) (elt : PyNode) (genIters : List PyNode)
  | constStr (s : String)
  | constInt (n : Int)

/-- Mutable state of PerformanceASTVisitor (performance.py lines 175-181);
the constant file_path and max_complexity are passed separately. -/
structure PerfState where
  issues : List Issue := []
  functionComplexities : List Nat := []
  currentComplexity : Nat := 0
  nestedLoops : Nat := 0
deriving DecidableEq

/-- Embeds the range(len(...)) shape test of performance.py lines 226-231. -/
def isRangeLen : PyNode → Bool
  | .call _ (.name _ "range" _) [.call _ (.name _ "len" _) _] => true
  | _ => false

/-- True when a call target is an attribute access ending in append
(performance.py lines 287-288). -/
def isAppendAttr : PyNode → Bool
  | .attrExpr _ _ a => a == "append"
  | _ => false

/-- True for comprehension nodes (performance.py lines 270-271; the embedded
tree has one comprehension kind). -/
def isCompNode : PyNode → Bool
  | .listComp _ _ _ => true
  | _ => false

/-- The complexity finding of performance.py lines 193-202. -/
def perfComplexityIssue (fp : String) (ln maxC c : Nat) : Issue :=
  { severity := if (c : ℚ) ≤ (maxC : ℚ) * 1.5 then .medium else .high,
    category := .performance,
    message := "Function complexity (" ++ toString c ++ ") exceeds threshold (" ++
      toString maxC ++ ")",
    filePath := fp, lineNumber := ln,
    ruleId := "performance.complexity",
    suggestion := "Consider breaking this function into smaller functions." }

/-- The deeply-nested-loops finding of performance.py lines 214-223. -/
def perfNestedLoopsIssue (fp : String) (ln depth : Nat) : Issue :=
  { severity := .medium, category := .performance,
    message := "Deeply nested loops (depth: " ++ toString depth ++
      ") may cause performance issues",
    filePath := fp, lineNumber := ln,
    ruleId := "performance.nested_loops",
    suggestion := "Consider flattening the loop structure or using more efficient algorithms." }

/-- The range(len()) finding of performance.py lines 232-240. -/
def perfRangeLenIssue (fp : String) (ln : Nat) : Issue :=
  { severity := .low, category := .performance,
    message := "Use enumerate() or direct iteration instead of range(len())",
    filePath := fp, lineNumber := ln,
    ruleId := "performance.range_len",
    suggestion := "Use \"for i, item in enumerate(collection)\" or \"for item in collection\"." }

/-- The append-in-loop finding of performance.py lines 288-297. -/
def perfAppendIssue (fp : String) (ln : Nat) : Issue :=
  { severity := .low, category := .performance,
    message := "List.append() in nested loop may be inefficient",
    filePath := fp, lineNumber := ln,
    ruleId := "performance.append_in_loop",
    suggestion := "Consider using list comprehension or preallocating the list." }

/-- The nested-comprehension finding of performance.py lines 272-280. -/
def perfNestedCompIssue (fp : String) (ln : Nat) : Issue :=
  { severity := .medium, category := .performance,
    message := "Nested list comprehensions can be hard to read and maintain",
    filePath := fp, lineNumber := ln,
    ruleId := "performance.nested_comprehension",
    suggestion := "Consider breaking into separate comprehensions or using traditional loops." }

mutual

/-- Embeds PerformanceASTVisitor.visit (performance.py lines 172-299): the
NodeVisitor dispatch on one node, where nodes without a visit method fall
through to generic_visit, which visits all child nodes in field order. -/
def PerformanceASTVisitor.visit (maxC : Nat) (fp : String) (s : PerfState) :
    PyNode → PerfState
  | .module body => PerformanceASTVisitor.visitList maxC fp s body
  | .functionDef _ ln _ _ body =>
    let old := s.currentComplexity
    let s1 := PerformanceASTVisitor.visitList maxC fp { s with currentComplexity := 1 } body
    { s1 with
      issues := s1.issues ++
        (if maxC < s1.currentComplexity then
          [perfComplexityIssue fp ln maxC s1.currentComplexity]
         else []),
      functionComplexities := s1.functionComplexities ++ [s1.currentComplexity],
      currentComplexity := old }
  | .classDef _ _ body => PerformanceASTVisitor.visitList maxC fp s body
  | .forStmt ln target iterE body =>
    let s1 := { s with currentComplexity := s.currentComplexity + 1 }
    let oldNested := s1.nestedLoops
    let s2 := { s1 with nestedLoops := s1.nestedLoops + 1 }
    let s3 := { s2 with
      issues := s2.issues ++
        (if 2 < s2.nestedLoops then [perfNestedLoopsIssue fp ln s2.nestedLoops] else []) }
    let s4 := { s3 with
      issues := s3.issues ++
        (if isRangeLen iterE then [perfRangeLenIssue fp ln] else []) }
    let s5 := PerformanceASTVisitor.visitList maxC fp
      (PerformanceASTVisitor.visit maxC fp (PerformanceASTVisitor.visit maxC fp s4 target) iterE)
      body
    { s5 with nestedLoops := oldNested }
  | .whileStmt _ test body =>
    let s1 := { s with
      currentComplexity := s.currentComplexity + 1,
      nestedLoops := s.nestedLoops + 1 }
    let s2 := PerformanceASTVisitor.visitList maxC fp
      (PerformanceASTVisitor.visit maxC fp s1 test) body
    { s2 with nestedLoops := s2.nestedLoops - 1 }
  | .ifStmt _ test body orelse =>
    let s1 := { s with currentComplexity := s.currentComplexity + 1 }
    PerformanceASTVisitor.visitList maxC fp
      (PerformanceASTVisitor.visitList maxC fp
        (PerformanceASTVisitor.visit maxC fp s1 test) body)
      orelse
  | .tryStmt _ body handlers finalBody =>
    let s1 := { s with currentComplexity := s.currentComplexity + 1 }
    PerformanceASTVisitor.visitList maxC fp
      (PerformanceASTVisitor.visitList maxC fp
        (PerformanceASTVisitor.visitList maxC fp s1 body) handlers)
      finalBody
  | .withStmt _ ctxExpr body =>
    let s1 := { s with currentComplexity := s.currentComplexity + 1 }
    PerformanceASTVisitor.visitList maxC fp
      (PerformanceASTVisitor.visit maxC fp s1 ctxExpr) body
  | .assign _ targets value =>
    PerformanceASTVisitor.visit maxC fp
      (PerformanceASTVisitor.visitList maxC fp s targets) value
  | .ret _ value =>
    match value with
    | some e => PerformanceASTVisitor.visit maxC fp s e
    | none => s
  | .exprStmt value => PerformanceASTVisitor.visit maxC fp s value
  | .pass => s
  | .name _ _ _ => s
  | .attrExpr _ value _ => PerformanceASTVisitor.visit maxC fp s value
  | .call ln f args =>
    let s1 := { s with
      issues := s.issues ++
        (if isAppendAttr f && 0 < s.nestedLoops then [perfAppendIssue fp ln] else []) }
    PerformanceASTVisitor.visitList maxC fp
      (PerformanceASTVisitor.visit maxC fp s1 f) args
  | .boolOp _ values => PerformanceASTVisitor.visitList maxC fp s values
  | .listComp ln elt genIters =>
    let s1 := { s with
      issues := s.issues ++
        (if genIters.any isCompNode then [perfNestedCompIssue fp ln] else []) }
    PerformanceASTVisitor.visitList maxC fp
      (PerformanceASTVisitor.visit maxC fp s1 elt) genIters
  | .constStr _ => s
  | .constInt _ => s

/-- Visits a list of child nodes left to right. -/
def PerformanceASTVisitor.visitList (maxC : Nat) (fp : String) (s : PerfState) :
    List PyNode → PerfState
  | [] => s
  | n :: ns =>
    PerformanceASTVisitor.visitList maxC fp (PerformanceASTVisitor.visit maxC fp s n) ns

end

/-- Embeds PerformanceASTVisitor.get_complexity_score (performance.py lines
301-314). -/
def PerfState.get_complexity_score (s : PerfState) (maxC : Nat) : ℚ :=
  if s.functionComplexities.isEmpty then 10
  else
    let avg : ℚ :=
      ((s.functionComplexities.map (fun n => (n : ℚ))).sum) / (s.functionComplexities.length : ℚ)
    let maxCx : ℚ := ((s.functionComplexities.foldl Nat.max 0 : Nat) : ℚ)
    pyMax 0 (10 - pyMax 0 ((avg - (maxC : ℚ)) * 0.5) - pyMax 0 ((maxCx - (maxC : ℚ) * 1.5) * 0.3))

/-- Outcome of ast.parse together with visitor execution: a parsed tree, a
SyntaxError, or any other exception with its text. -/
inductive ParseErr
  | synErr
  | otherErr (msg : String)
deriving DecidableEq

/-- A file content as the analyzers consume it: its physical lines
(content.splitlines) and the outcome of ast.parse on it. -/
structure PyFile where
  lines : List String
  parsed : Except ParseErr PyNode

/-- Embeds PerformanceAnalyzer._analyze_python_ast (performance.py lines
99-123): a parsed tree runs the visitor, a SyntaxError is silently skipped
leaving the default score of 10, any other exception yields one low finding
and also leaves the default score. -/
def PerformanceAnalyzer._analyze_python_ast (maxC : Nat) (fp : String)
    (parsed : Except ParseErr PyNode) : List Issue × ℚ :=
  match parsed with
  | .ok tree =>
    let v := PerformanceASTVisitor.visit maxC fp {} tree
    (v.issues, v.get_complexity_score maxC)
  | .error .synErr => ([], 10)
  | .error (.otherErr e) =>
    ([{ severity := .low, category := .performance,
        message := "AST analysis failed: " ++ e,
        filePath := fp, lineNumber := 0,
        ruleId := "performance.ast_error" }], 10)

/-- Embeds PerformanceAnalyzer.analyze_file (performance.py lines 20-46):
pattern issues, then AST issues for Python files or regex issues for
JavaScript-family files; the score starts at 10, is clamped by the structural
complexity score for Python files, then loses 3 per critical, 2 per high and
1 per medium finding, floored at 0. -/
def PerformanceAnalyzer.analyze_file (maxC : Nat) (fp : String) (f : PyFile) :
    List Issue × ℚ :=
  let patternIssues := PerformanceAnalyzer._analyze_patterns fp f.lines
  let issues :=
    if pyEndsWith fp ".py" then
      patternIssues ++ (PerformanceAnalyzer._analyze_python_ast maxC fp f.parsed).1
    else if pyEndsWith fp ".js" || pyEndsWith fp ".ts" || pyEndsWith fp ".jsx" || pyEndsWith fp ".tsx" then
      patternIssues ++ PerformanceAnalyzer._analyze_javascript_patterns fp f.lines
    else patternIssues
  let base : ℚ :=
    if pyEndsWith fp ".py" then
      pyMin 10 (PerformanceAnalyzer._analyze_python_ast maxC fp f.parsed).2
    else 10
  (issues,
   pyMax 0 (base - (countSev issues .critical : ℚ) * 3 - (countSev issues .high : ℚ) * 2 -
     (countSev issues .medium : ℚ) * 1))

/-- Mutable state of MaintainabilityASTVisitor (maintainability.py lines
158-175); the constant file_path and the three thresholds are passed
separately. Function lengths are integers (end_lineno - lineno). -/
structure MaintState where
  issues : List Issue := []
  functionLengths : List Int := []
  functionComplexities : List Nat := []
  classMethodCounts : List Nat := []
  variableNames : List String := []
  functionNames : List String := []
  classNames : List String := []
  currentComplexity : Nat := 0
  currentFunctionLength : Nat := 0
deriving DecidableEq

/-- Embeds re.match of the snake_case regex of maintainability.py line 225:
a lower-case letter or underscore followed by lower-case letters, digits or
underscores, spanning the whole name. -/
def isSnakeCase (nm : String) : Bool :=
  match nm.toList with
  | [] => false
  | c :: rest => (c.isLower || c == '_') && rest.all (fun d => d.isLower || d.isDigit || d == '_')

/-- Embeds re.match of the PascalCase regex of maintainability.py line 180:
an upper-case letter followed by letters or digits, spanning the whole
name. -/
def isPascalCase (nm : String) : Bool :=
  match nm.toList with
  | [] => false
  | c :: rest => c.isUpper && rest.all (fun d => d.isAlpha || d.isDigit)

/-- Embeds re.match of the ALL_CAPS shape regex of maintainability.py line
314: an upper-case letter followed by upper-case letters, digits or
underscores, spanning the whole name. -/
def isAllCapsShape (nm : String) : Bool :=
  match nm.toList with
  | [] => false
  | c :: rest => c.isUpper && rest.all (fun d => d.isUpper || d.isDigit || d == '_')

/-- Embeds Python str.isupper (ASCII model): at least one cased character and
no lower-case cased character. -/
def pyIsUpper (nm : String) : Bool :=
  nm.toList.any Char.isAlpha && nm.toList.all (fun c => !c.isAlpha || c.isUpper)

/-- Embeds ast.get_docstring on a body: its first statement is an expression
statement holding a string constant. -/
def hasDocstring : List PyNode → Bool
  | .exprStmt (.constStr _) :: _ => true
  | _ => false

/-- True for function definition nodes (the isinstance test of
maintainability.py line 194). -/
def isFunctionDefNode : PyNode → Bool
  | .functionDef _ _ _ _ _ => true
  | _ => false

/-- The class-naming finding of maintainability.py lines 181-189. -/
def classNamingIssue (fp : String) (ln : Nat) (nm : String) : Issue :=
  { severity := .low, category := .maintainability,
    message := "Class name \"" ++ nm ++ "\" doesn\x27t follow PascalCase convention",
    filePath := fp, lineNumber := ln,
    ruleId := "maintainability.class_naming",
    suggestion := "Use PascalCase for class names (e.g., MyClass)." }

/-- The too-many-methods finding of maintainability.py lines 196-204. -/
def tooManyMethodsIssue (fp : String) (ln count : Nat) : Issue :=
  { severity := .medium, category := .maintainability,
    message := "Class has too many methods (" ++ toString count ++ ")",
    filePath := fp, lineNumber := ln,
    ruleId := "maintainability.too_many_methods",
    suggestion := "Consider splitting the class or using composition." }

/-- The class missing-docstring finding of maintainability.py lines 209-218. -/
def classDocstringIssue (fp : String) (ln : Nat) (nm : String) : Issue :=
  { severity := .low, category := .maintainability,
    message := "Class \"" ++ nm ++ "\" missing docstring",
    filePath := fp, lineNumber := ln,
    ruleId := "maintainability.missing_docstring",
    suggestion := "Add a docstring to explain the class purpose." }

/-- The function-naming finding of maintainability.py lines 226-234. -/
def functionNamingIssue (fp : String) (ln : Nat) (nm : String) : Issue :=
  { severity := .low, category := .maintainability,
    message := "Function name \"" ++ nm ++ "\" doesn\x27t follow snake_case convention",
    filePath := fp, lineNumber := ln,
    ruleId := "maintainability.function_naming",
    suggestion := "Use snake_case for function names (e.g., my_function)." }

/-- The long-function finding of maintainability.py lines 242-250. -/
def longFunctionIssue (fp : String) (ln : Nat) (len : Int) : Issue :=
  { severity := .medium, category := .maintainability,
    message := "Function is too long (" ++ toString len ++ " lines)",
    filePath := fp, lineNumber := ln,
    ruleId := "maintainability.long_function",
    suggestion := "Break long functions into smaller, focused functions." }

/-- The visitor too-many-parameters finding of maintainability.py lines
256-265. -/
def tooManyParamsIssue (fp : String) (ln count : Nat) : Issue :=
  { severity := .medium, category := .maintainability,
    message := "Function has too many parameters (" ++ toString count ++ ")",
    filePath := fp, lineNumber := ln,
    ruleId := "maintainability.too_many_params",
    suggestion := "Consider using a configuration object or reducing parameters." }

/-- The function missing-docstring finding of maintainability.py lines
268-277. -/
def functionDocstringIssue (fp : String) (ln : Nat) (nm : String) : Issue :=
  { severity := .low, category := .maintainability,
    message := "Function \"" ++ nm ++ "\" missing docstring",
    filePath := fp, lineNumber := ln,
    ruleId := "maintainability.missing_docstring",
    suggestion := "Add a docstring to explain the function purpose and parameters." }

/-- The high-complexity finding of maintainability.py lines 284-293. -/
def highComplexityIssue (fp : String) (ln c : Nat) : Issue :=
  { severity := .medium, category := .maintainability,
    message := "Function complexity (" ++ toString c ++ ") is too high",
    filePath := fp, lineNumber := ln,
    ruleId := "maintainability.high_complexity",
    suggestion := "Simplify the function by extracting complex logic into helper functions." }

/-- The single-letter-variable finding of maintainability.py lines 302-311. -/
def shortVariableIssue (fp : String) (ln : Nat) (nm : String) : Issue :=
  { severity := .low, category := .maintainability,
    message := "Single-letter variable name \"" ++ nm ++ "\" is not descriptive",
    filePath := fp, lineNumber := ln,
    ruleId := "maintainability.short_variable_name",
    suggestion := "Use descriptive variable names instead of single letters." }

/-- The constant-naming finding of maintainability.py lines 314-323 (no
suggestion in the source). -/
def constantNamingIssue (fp : String) (ln : Nat) (nm : String) : Issue :=
  { severity := .low, category := .maintainability,
    message := "Constant \"" ++ nm ++ "\" should use UPPER_CASE convention",
    filePath := fp, lineNumber := ln,
    ruleId := "maintainability.constant_naming" }

mutual

/-- Embeds MaintainabilityASTVisitor.visit (maintainability.py lines
155-357): the NodeVisitor dispatch on one node, where nodes without a visit
method fall through to generic_visit visiting all child nodes in field
order. -/
def MaintainabilityASTVisitor.visit (maxC maxLen maxMethods : Nat) (fp : String)
    (s : MaintState) : PyNode → MaintState
  | .module body => MaintainabilityASTVisitor.visitList maxC maxLen maxMethods fp s body
  | .classDef nm ln body =>
    let methodCount := (body.filter isFunctionDefNode).length
    let s1 := { s with
      issues := s.issues ++
        (if !isPascalCase nm then [classNamingIssue fp ln nm] else []) ++
        (if maxMethods < methodCount then [tooManyMethodsIssue fp ln methodCount] else []) ++
        (if !hasDocstring body then [classDocstringIssue fp ln nm] else []),
      classNames := s.classNames ++ [nm],
      classMethodCounts := s.classMethodCounts ++ [methodCount] }
    MaintainabilityASTVisitor.visitList maxC maxLen maxMethods fp s1 body
  | .functionDef nm ln el args body =>
    let funcLen : Int := (el : Int) - (ln : Int)
    let s1 := { s with
      issues := s.issues ++
        (if !isSnakeCase nm && !nm.startsWith "__" then [functionNamingIssue fp ln nm] else []) ++
        (if (maxLen : Int) < funcLen then [longFunctionIssue fp ln funcLen] else []) ++
        (if 5 < args.length then [tooManyParamsIssue fp ln args.length] else []) ++
        (if 5 < funcLen && !hasDocstring body && !nm.startsWith "_" then
          [functionDocstringIssue fp ln nm] else []),
      functionNames := s.functionNames ++ [nm],
      functionLengths := s.functionLengths ++ [funcLen] }
    let old := s1.currentComplexity
    let s2 := MaintainabilityASTVisitor.visitList maxC maxLen maxMethods fp
      { s1 with currentComplexity := 1 } body
    { s2 with
      issues := s2.issues ++
        (if maxC < s2.currentComplexity then
          [highComplexityIssue fp ln s2.currentComplexity] else []),
      functionComplexities := s2.functionComplexities ++ [s2.currentComplexity],
      currentComplexity := old }
  | .forStmt _ target iterE body =>
    let s1 := { s with currentComplexity := s.currentComplexity + 1 }
    MaintainabilityASTVisitor.visitList maxC maxLen maxMethods fp
      (MaintainabilityASTVisitor.visit maxC maxLen maxMethods fp
        (MaintainabilityASTVisitor.visit maxC maxLen maxMethods fp s1 target) iterE)
      body
  | .whileStmt _ test body =>
    let s1 := { s with currentComplexity := s.currentComplexity + 1 }
    MaintainabilityASTVisitor.visitList maxC maxLen maxMethods fp
      (MaintainabilityASTVisitor.visit maxC maxLen maxMethods fp s1 test) body
  | .ifStmt _ test body orelse =>
    let s1 := { s with currentComplexity := s.currentComplexity + 1 }
    MaintainabilityASTVisitor.visitList maxC maxLen maxMethods fp
      (MaintainabilityASTVisitor.visitList maxC maxLen maxMethods fp
        (MaintainabilityASTVisitor.visit maxC maxLen maxMethods fp s1 test) body)
      orelse
  | .tryStmt _ body handlers finalBody =>
    let s1 := { s with currentComplexity := s.currentComplexity + 1 }
    MaintainabilityASTVisitor.visitList maxC maxLen maxMethods fp
      (MaintainabilityASTVisitor.visitList maxC maxLen maxMethods fp
        (MaintainabilityASTVisitor.visitList maxC maxLen maxMethods fp s1 body) handlers)
      finalBody
  | .withStmt _ ctxExpr body =>
    let s1 := { s with currentComplexity := s.currentComplexity + 1 }
    MaintainabilityASTVisitor.visitList maxC maxLen maxMethods fp
      (MaintainabilityASTVisitor.visit maxC maxLen maxMethods fp s1 ctxExpr) body
  | .assign _ targets value =>
    MaintainabilityASTVisitor.visit maxC maxLen maxMethods fp
      (MaintainabilityASTVisitor.visitList maxC maxLen maxMethods fp s targets) value
  | .ret _ value =>
    match value with
    | some e => MaintainabilityASTVisitor.visit maxC maxLen maxMethods fp s e
    | none => s
  | .exprStmt value => MaintainabilityASTVisitor.visit maxC maxLen maxMethods fp s value
  | .pass => s
  | .name ln nm isStore =>
    if isStore then
      { s with
        issues := s.issues ++
          (if nm.length == 1 && !(["i", "j", "k", "x", "y", "z"].contains nm) then
            [shortVariableIssue fp ln nm] else []) ++
          (if isAllCapsShape nm && (!pyIsUpper nm || !nm.contains '_') then
            [constantNamingIssue fp ln nm] else []),
        variableNames := s.variableNames ++ [nm] }
    else s
  | .attrExpr _ value _ => MaintainabilityASTVisitor.visit maxC maxLen maxMethods fp s value
  | .call _ f args =>
    MaintainabilityASTVisitor.visitList maxC maxLen maxMethods fp
      (MaintainabilityASTVisitor.visit maxC maxLen maxMethods fp s f) args
  | .boolOp _ values =>
    let s1 := { s with currentComplexity := s.currentComplexity + (values.length - 1) }
    MaintainabilityASTVisitor.visitList maxC maxLen maxMethods fp s1 values
  | .listComp _ elt genIters =>
    MaintainabilityASTVisitor.visitList maxC maxLen maxMethods fp
      (MaintainabilityASTVisitor.visit maxC maxLen maxMethods fp s elt) genIters
  | .constStr _ => s
  | .constInt _ => s

/-- Visits a list of child nodes left to right. -/
def MaintainabilityASTVisitor.visitList (maxC maxLen maxMethods : Nat) (fp : String)
    (s : MaintState) : List PyNode → MaintState
  | [] => s
  | n :: ns =>
    MaintainabilityASTVisitor.visitList maxC maxLen maxMethods fp
      (MaintainabilityASTVisitor.visit maxC maxLen maxMethods fp s n) ns

end

/-- Embeds MaintainabilityASTVisitor.get_structural_score (maintainability.py
lines 359-381). -/
def MaintState.get_structural_score (s : MaintState) (maxC maxLen maxMethods : Nat) : ℚ :=
  let score0 : ℚ := 10
  let score1 :=
    if s.functionLengths.isEmpty then score0
    else
      let avgLen : ℚ :=
        ((s.functionLengths.map (fun n => (n : ℚ))).sum) / (s.functionLengths.length : ℚ)
      if (maxLen : ℚ) < avgLen then score0 - (avgLen - (maxLen : ℚ)) * 0.1 else score0
  let score2 :=
    if s.functionComplexities.isEmpty then score1
    else
      let avgCx : ℚ :=
        ((s.functionComplexities.map (fun n => (n : ℚ))).sum) / (s.functionComplexities.length : ℚ)
      if (maxC : ℚ) < avgCx then score1 - (avgCx - (maxC : ℚ)) * 0.2 else score1
  let score3 :=
    if s.classMethodCounts.isEmpty then score2
    else
      let avgM : ℚ :=
        ((s.classMethodCounts.map (fun n => (n : ℚ))).sum) / (s.classMethodCounts.length : ℚ)
      if (maxMethods : ℚ) < avgM then score2 - (avgM - (maxMethods : ℚ)) * 0.1 else score2
  pyMax 0 score3

/-- The syntax-error finding of maintainability.py lines 132-140. -/
def synErrIssue (fp : String) : Issue :=
  { severity := .high, category := .maintainability,
    message := "Syntax error in file",
    filePath := fp, lineNumber := 0,
    ruleId := "maintainability.syntax_error",
    suggestion := "Fix syntax errors to improve code maintainability." }

/-- The structure-analysis-failure finding of maintainability.py lines
143-150. -/
def analysisErrorIssue (fp : String) (e : String) : Issue :=
  { severity := .low, category := .maintainability,
    message := "Structure analysis failed: " ++ e,
    filePath := fp, lineNumber := 0,
    ruleId := "maintainability.analysis_error" }

/-- Embeds MaintainabilityScorer._analyze_python_structure (maintainability.py
lines 118-152): a parsed tree runs the visitor; a SyntaxError yields one high
finding and forces the structural score to 5; any other exception yields one
low finding and leaves the default score of 10. -/
def MaintainabilityScorer._analyze_python_structure (maxC maxLen maxMethods : Nat)
    (fp : String) (parsed : Except ParseErr PyNode) : List Issue × ℚ :=
  match parsed with
  | .ok tree =>
    let v := MaintainabilityASTVisitor.visit maxC maxLen maxMethods fp {} tree
    (v.issues, v.get_structural_score maxC maxLen maxMethods)
  | .error .synErr => ([synErrIssue fp], 5)
  | .error (.otherErr e) => ([analysisErrorIssue fp e], 10)

/-- Embeds MaintainabilityScorer.score_file (maintainability.py lines 22-44):
pattern issues, then structural issues for Python files; the base score of 10
is clamped by the structural score for Python files, then loses 2 per
critical, 1.5 per high, 1 per medium and 0.5 per low finding, floored
at 0. -/
def MaintainabilityScorer.score_file (maxC maxLen maxMethods : Nat) (fp : String)
    (f : PyFile) : List Issue × ℚ :=
  let patternIssues := MaintainabilityScorer._analyze_patterns fp f.lines
  let issues :=
    if pyEndsWith fp ".py" then
      patternIssues ++
        (MaintainabilityScorer._analyze_python_structure maxC maxLen maxMethods fp f.parsed).1
    else patternIssues
  let base : ℚ :=
    if pyEndsWith fp ".py" then
      pyMin 10 (MaintainabilityScorer._analyze_python_structure maxC maxLen maxMethods fp f.parsed).2
    else 10
  (issues,
   pyMax 0 (base - (countSev issues .critical : ℚ) * 2 - (countSev issues .high : ℚ) * 1.5 -
     (countSev issues .medium : ℚ) * 1 - (countSev issues .low : ℚ) * 0.5))

/-- Embeds the AIPattern dataclass of ai_detector.py lines 10-17. -/
structure AIPattern where
  patternType : String
  confidence : ℚ
  description : String
  lineNumber : Nat
  evidence : String
deriving DecidableEq

/-- Embeds the aggregation and filtering stage of
AIPatternDetector.detect_ai_patterns (ai_detector.py lines 87-125), factored
over the concatenation, in source order, of the match lists produced by the
five sub-detector families on the content. The overall confidence is 0 when
nothing matched, otherwise the sum of all match confidences divided by the
match count plus 2, capped at 0.95; the returned list keeps only matches at
or above the configured threshold. -/
def AIPatternDetector.detect_ai_patterns (threshold : ℚ)
    (detected_patterns : List AIPattern) : ℚ × List AIPattern :=
  let total_confidence : ℚ :=
    if detected_patterns.isEmpty then 0
    else
      pyMin 0.95
        (((detected_patterns.map (fun p => p.confidence)).sum) /
          ((detected_patterns.length : ℚ) + 2))
  (total_confidence, detected_patterns.filter (fun p => threshold ≤ p.confidence))

/-- The resolved configuration the orchestrator consumes (config.py defaults;
the per-rule-set enabled flags, the numeric thresholds and the exclude
list). -/
structure AnalyzerConfig where
  securityEnabled : Bool := true
  performanceEnabled : Bool := true
  maintainabilityEnabled : Bool := true
  aiDetectionEnabled : Bool := true
  perfMaxComplexity : Nat := 10
  maintMaxComplexity : Nat := 10
  maxFunctionLength : Nat := 50
  maxClassMethods : Nat := 20
  aiConfidenceThreshold : ℚ := 0.7
  excludePatterns : List String := []

/-- One discovered file as CodeAnalyzer._analyze_file consumes it: its path
and the outcome of reading it. The read outcome carries the line list and
parse outcome consumed by the performance and maintainability analyzers,
together with the results of the two regex-table components not themselves
under verification here: the security scan of scanner.py (a pure function of
path and content, carried as the issue list it returns on this content) and
the five AI sub-detector families of ai_detector.py (carried as the
unfiltered match list they return on this content). -/
structure FileData where
  lines : List String
  parsed : Except ParseErr PyNode
  securityIssues : List Issue
  aiMatches : List AIPattern

/-- A file path together with the outcome of file_path.read_text: reading may
raise (unreadable file), which is the exceptional path of the try block of
CodeAnalyzer._analyze_file. -/
structure SourceFile where
  path : String
  read : Except String FileData

/-- The per-file score map of CodeAnalyzer._analyze_file: keys are present
only when the corresponding rule set ran. -/
structure FileScores where
  performanceScore : Option ℚ := none
  maintainabilityScore : Option ℚ := none
  aiConfidence : Option ℚ := none
  aiPatterns : Option (List AIPattern) := none
deriving DecidableEq

/-- The analysis-failure finding of analyzer.py lines 126-132. -/
def analyzeFailureIssue (fp : String) (e : String) : Issue :=
  { severity := .medium, category := .analysis,
    message := "Failed to analyze file: " ++ e,
    filePath := fp, lineNumber := 0 }

/-- Embeds CodeAnalyzer._analyze_file (analyzer.py lines 92-134): on a
successful read, every enabled rule set runs in order (security,
performance, maintainability, AI detection) and contributes findings and
scores; a failed read is converted into a single medium analysis finding at
line 0 with empty scores. -/
def CodeAnalyzer._analyze_file (cfg : AnalyzerConfig) (detect_ai_patterns : Bool)
    (sf : SourceFile) : List Issue × FileScores :=
  match sf.read with
  | .error e => ([analyzeFailureIssue sf.path e], {})
  | .ok fd =>
    let secIssues := if cfg.securityEnabled then fd.securityIssues else []
    let perf :=
      if cfg.performanceEnabled then
        some (PerformanceAnalyzer.analyze_file cfg.perfMaxComplexity sf.path
          { lines := fd.lines, parsed := fd.parsed })
      else none
    let maint :=
      if cfg.maintainabilityEnabled then
        some (MaintainabilityScorer.score_file cfg.maintMaxComplexity cfg.maxFunctionLength
          cfg.maxClassMethods sf.path { lines := fd.lines, parsed := fd.parsed })
      else none
    let ai :=
      if detect_ai_patterns && cfg.aiDetectionEnabled then
        some (AIPatternDetector.detect_ai_patterns cfg.aiConfidenceThreshold fd.aiMatches)
      else none
    (secIssues ++ (perf.map Prod.fst).getD [] ++ (maint.map Prod.fst).getD [],
     { performanceScore := perf.map Prod.snd,
       maintainabilityScore := maint.map Prod.snd,
       aiConfidence := ai.map Prod.fst,
       aiPatterns := ai.map Prod.snd })

/-- Embeds the AnalysisResults dataclass of models.py lines 22-32, with the
file_scores dict as an association list in insertion order. -/
structure AnalysisResults where
  filesScanned : Nat := 0
  securityIssues : Nat := 0
  performanceIssues : Nat := 0
  maintainabilityScore : ℚ := 10
  aiGeneratedPercentage : ℚ := 0
  issues : List Issue := []
  fileScores : List (String × FileScores) := []
  executionTime : ℚ := 0

/-- Embeds assignment into a Python dict: an existing key keeps its position
and gets the new value, a new key is appended. -/
def dictInsert (m : List (String × FileScores)) (k : String) (v : FileScores) :
    List (String × FileScores) :=
  if m.any (fun kv => kv.1 == k) then
    m.map (fun kv => if kv.1 == k then (k, v) else kv)
  else m ++ [(k, v)]

/-- One iteration of the accumulation loop of analyzer.py lines 52-62:
appends the issues of one file, stores its score map in the file_scores
dict, and records its ai_confidence when present. -/
def CodeAnalyzer.collectStep (cfg : AnalyzerConfig) (detect_ai_patterns : Bool)
    (acc : List Issue × List (String × FileScores) × List ℚ) (sf : SourceFile) :
    List Issue × List (String × FileScores) × List ℚ :=
  let r := CodeAnalyzer._analyze_file cfg detect_ai_patterns sf
  (acc.1 ++ r.1, dictInsert acc.2.1 sf.path r.2,
   acc.2.2 ++ (match r.2.aiConfidence with | some c => [c] | none => []))

/-- The accumulation loop of analyzer.py lines 52-62 over the discovered
files, one collectStep per file in order. -/
def CodeAnalyzer.collect (cfg : AnalyzerConfig) (detect_ai_patterns : Bool)
    (files : List SourceFile) :
    List Issue × List (String × FileScores) × List ℚ :=
  files.foldl (CodeAnalyzer.collectStep cfg detect_ai_patterns) ([], [], [])

/-- Embeds CodeAnalyzer.analyze_paths (analyzer.py lines 29-90) from the
point where the files to analyze are known (discovery is filesystem glue,
outside the core): per-file analysis and accumulation, the minimum-severity
filter, the post-filter category counts, the maintainability mean over the
file_scores values (defaulting to 10 per file without that key), the AI mean
times 100, and the wall-clock execution time, modelled by passing the two
time.time() readings (analyzer.py lines 33 and 89) as explicit inputs. -/
def CodeAnalyzer.analyze_paths (cfg : AnalyzerConfig) (files : List SourceFile)
    (min_severity : Severity) (detect_ai_patterns : Bool)
    (startTime endTime : ℚ) : AnalysisResults :=
  let c := CodeAnalyzer.collect cfg detect_ai_patterns files
  let filtered := c.1.filter (fun i => min_severity.level ≤ i.severity.level)
  let maintScores := c.2.1.map (fun kv => (kv.2.maintainabilityScore).getD 10)
  { filesScanned := files.length
    issues := filtered
    fileScores := c.2.1
    securityIssues := (filtered.filter (fun i => i.category == .security)).length
    performanceIssues := (filtered.filter (fun i => i.category == .performance)).length
    maintainabilityScore :=
      if maintScores.isEmpty then 10 else maintScores.sum / (maintScores.length : ℚ)
    aiGeneratedPercentage :=
      if c.2.2.isEmpty then 0 else (c.2.2.sum / (c.2.2.length : ℚ)) * 100
    executionTime := endTime - startTime }

/-- Embeds the exclude-pattern setup of CodeAnalyzer.analyze_paths
(analyzer.py lines 35-36) together with the Python aliasing semantics it
relies on: the expression exclude_patterns or a fresh empty list evaluates to
the caller-owned list object itself whenever that list is non-empty, and
list.extend then mutates that object in place with the configuration
exclude patterns. The result triple is the caller-visible list after the
call, the effective pattern list the scan uses, and the configuration list
after the call. -/
def CodeAnalyzer.excludeSetup (callerPatterns configPatterns : List String) :
    List String × List String × List String :=
  let base := if callerPatterns.isEmpty then [] else callerPatterns
  let effective := base ++ configPatterns
  let callerAfter := if callerPatterns.isEmpty then callerPatterns else effective
  (callerAfter, effective, configPatterns)

/-! Claim theorems. -/

/-- C2: for every content string, the AI-pattern detect operation returns
overall confidence 0 when no pattern matched anywhere, and otherwise the sum
of all individual match confidences divided by the match count plus 2, capped
at 0.95, computed over the unfiltered match set; the returned pattern list
contains exactly the matches whose own confidence is at least the configured
threshold. -/
theorem c2_ai_confidence_aggregation (threshold : ℚ) (detected : List AIPattern) :
    (AIPatternDetector.detect_ai_patterns threshold detected).1 =
      (if detected = [] then 0
       else
         pyMin 0.95
           (((detected.map (fun p => p.confidence)).sum) / ((detected.length : ℚ) + 2))) ∧
    (AIPatternDetector.detect_ai_patterns threshold detected).2 =
      detected.filter (fun p => threshold ≤ p.confidence) := by
  constructor
  · simp [AIPatternDetector.detect_ai_patterns, List.isEmpty_iff]
  · rfl

/-- C7: per-file analysis and aggregation are deterministic; two runs of the
scan on the same files and configuration differ at most in the reported
execution time, which is the difference of the two clock readings. -/
theorem c7_determinism_modulo_time (cfg : AnalyzerConfig) (files : List SourceFile)
    (min_severity : Severity) (detect_ai : Bool) (t1 t2 t1' t2' : ℚ) :
    CodeAnalyzer.analyze_paths cfg files min_severity detect_ai t1' t2' =
      { CodeAnalyzer.analyze_paths cfg files min_severity detect_ai t1 t2 with
        executionTime := t2' - t1' } :=
  rfl

/-- C10: calling analyze_paths with a non-empty caller-owned exclude list
appends the configured exclude patterns to that very list, so the caller
sees it grow by their number, while the configuration list itself is
unchanged. -/
theorem c10_exclude_patterns_mutation (caller config : List String) (h : caller ≠ []) :
    (CodeAnalyzer.excludeSetup caller config).1 = caller ++ config ∧
    (CodeAnalyzer.excludeSetup caller config).1.length =
      caller.length + config.length ∧
    (CodeAnalyzer.excludeSetup caller config).2.2 = config := by
  unfold CodeAnalyzer.excludeSetup
  simp [List.isEmpty_iff, h]

/-- Witness for C10 at a concrete caller list and configuration list. -/
theorem c10_exclude_patterns_mutation_witness :
    (["src"] : List String) ≠ [] ∧
    ((CodeAnalyzer.excludeSetup ["src"] ["a", "b"]).1 = ["src"] ++ ["a", "b"] ∧
     (CodeAnalyzer.excludeSetup ["src"] ["a", "b"]).1.length =
       (["src"] : List String).length + (["a", "b"] : List String).length ∧
     (CodeAnalyzer.excludeSetup ["src"] ["a", "b"]).2.2 = ["a", "b"]) :=
  ⟨by decide, c10_exclude_patterns_mutation ["src"] ["a", "b"] (by decide)⟩

/-- C5: severity filtering in the orchestrator is monotonic; every issue
surviving the filter at a higher threshold also survives at a lower one, so
raising the minimum severity never increases the number of reported
issues. -/
theorem c5_severity_filter_monotonic (cfg : AnalyzerConfig) (files : List SourceFile)
    (detect_ai : Bool) (t1 t2 : ℚ) (s1 s2 : Severity) (h : s1.level ≤ s2.level) :
    (∀ i ∈ (CodeAnalyzer.analyze_paths cfg files s2 detect_ai t1 t2).issues,
        i ∈ (CodeAnalyzer.analyze_paths cfg files s1 detect_ai t1 t2).issues) ∧
    (CodeAnalyzer.analyze_paths cfg files s2 detect_ai t1 t2).issues.length ≤
      (CodeAnalyzer.analyze_paths cfg files s1 detect_ai t1 t2).issues.length := by
  have hiss : ∀ s : Severity,
      (CodeAnalyzer.analyze_paths cfg files s detect_ai t1 t2).issues =
        (CodeAnalyzer.collect cfg detect_ai files).1.filter
          (fun i => decide (s.level ≤ i.severity.level)) := fun _ => rfl
  constructor
  · intro i hi
    rw [hiss] at hi ⊢
    rw [List.mem_filter] at hi ⊢
    refine ⟨hi.1, ?_⟩
    have h2 := of_decide_eq_true hi.2
    exact decide_eq_true (le_trans h h2)
  · rw [hiss, hiss]
    apply List.Sublist.length_le
    apply List.monotone_filter_right
    intro a ha
    have h2 := of_decide_eq_true ha
    exact decide_eq_true (le_trans h h2)

/-- Witness for C5 at concrete thresholds low and high on an empty scan. -/
theorem c5_severity_filter_monotonic_witness :
    Severity.low.level ≤ Severity.high.level ∧
    ((∀ i ∈ (CodeAnalyzer.analyze_paths {} [] Severity.high true 0 0).issues,
        i ∈ (CodeAnalyzer.analyze_paths {} [] Severity.low true 0 0).issues) ∧
     (CodeAnalyzer.analyze_paths {} [] Severity.high true 0 0).issues.length ≤
       (CodeAnalyzer.analyze_paths {} [] Severity.low true 0 0).issues.length) :=
  ⟨by decide, c5_severity_filter_monotonic {} [] true 0 0 .low .high (by decide)⟩

/-- Inserting a key into the file_scores dict makes it present. -/
theorem dictInsert_containsKey (m : List (String × FileScores)) (k : String) (v : FileScores) :
    (dictInsert m k v).any (fun kv => kv.1 == k) = true := by
  unfold dictInsert
  split
  · rename_i h
    rw [List.any_eq_true] at h ⊢
    obtain ⟨kv, hm, hk⟩ := h
    exact ⟨(k, v), List.mem_map.mpr ⟨kv, hm, by simp [hk]⟩, by simp⟩
  · simp

/-- Inserting a key into the file_scores dict keeps every present key
present. -/
theorem dictInsert_preserves (m : List (String × FileScores)) (k : String)
    (v : FileScores) (k' : String) (h : m.any (fun kv => kv.1 == k') = true) :
    (dictInsert m k v).any (fun kv => kv.1 == k') = true := by
  unfold dictInsert
  split
  · rw [List.any_eq_true] at h ⊢
    obtain ⟨kv, hm, hk⟩ := h
    by_cases hkk : (kv.1 == k) = true
    · refine ⟨(k, v), List.mem_map.mpr ⟨kv, hm, by simp [hkk]⟩, ?_⟩
      have h1 : kv.1 = k := by exact eq_of_beq hkk
      have h2 : kv.1 = k' := by exact eq_of_beq hk
      simp [← h1, h2]
    · refine ⟨kv, List.mem_map.mpr ⟨kv, hm, by simp [hkk]⟩, hk⟩
  · rw [List.any_eq_true] at h ⊢
    obtain ⟨kv, hm, hk⟩ := h
    exact ⟨kv, List.mem_append_left _ hm, hk⟩

/-- Every analyzed file ends up with an entry in the accumulated file_scores
dict, whatever the starting accumulator. -/
theorem collect_foldl_hasKey (cfg : AnalyzerConfig) (detect_ai : Bool) :
    ∀ (files : List SourceFile) (acc : List Issue × List (String × FileScores) × List ℚ)
      (f : SourceFile),
      (f ∈ files ∨ acc.2.1.any (fun kv => kv.1 == f.path) = true) →
      ((files.foldl (CodeAnalyzer.collectStep cfg detect_ai) acc).2.1.any
        (fun kv => kv.1 == f.path)) = true := by
  intro files
  induction files with
  | nil =>
    intro acc f h
    rcases h with h | h
    · cases h
    · simpa using h
  | cons x xs ih =>
    intro acc f h
    rw [List.foldl_cons]
    apply ih
    rcases h with h | h
    · rcases List.mem_cons.mp h with rfl | hmem
      · right
        exact dictInsert_containsKey _ _ _
      · left; exact hmem
    · right
      exact dictInsert_preserves _ _ _ _ h

/-- C6: a per-file exception (such as an unreadable file) is converted into
exactly one medium-severity analysis finding at line 0 with empty scores, and
the scan is not aborted: the result still counts every discovered file and
has a file_scores entry for each of them. -/
theorem c6_file_error_isolation (cfg : AnalyzerConfig) (detect_ai : Bool)
    (sf : SourceFile) (e : String) (h : sf.read = .error e)
    (files : List SourceFile) (min_severity : Severity) (t1 t2 : ℚ) :
    CodeAnalyzer._analyze_file cfg detect_ai sf =
      ([{ severity := .medium, category := .analysis,
          message := "Failed to analyze file: " ++ e,
          filePath := sf.path, lineNumber := 0 }], {}) ∧
    (CodeAnalyzer.analyze_paths cfg files min_severity detect_ai t1 t2).filesScanned =
      files.length ∧
    (∀ f ∈ files,
      (CodeAnalyzer.analyze_paths cfg files min_severity detect_ai t1 t2).fileScores.any
        (fun kv => kv.1 == f.path) = true) := by
  refine ⟨?_, rfl, ?_⟩
  · unfold CodeAnalyzer._analyze_file
    rw [h]
    rfl
  · intro f hf
    have : (CodeAnalyzer.analyze_paths cfg files min_severity detect_ai t1 t2).fileScores =
        (files.foldl (CodeAnalyzer.collectStep cfg detect_ai) ([], [], [])).2.1 := rfl
    rw [this]
    exact collect_foldl_hasKey cfg detect_ai files ([], [], []) f (Or.inl hf)

/-- Witness for C6: a failing read next to a healthy empty file. -/
theorem c6_file_error_isolation_witness :
    ({ path := "bad.py", read := .error "Permission denied" } : SourceFile).read =
      .error "Permission denied" ∧
    (CodeAnalyzer._analyze_file {} true { path := "bad.py", read := .error "Permission denied" } =
      ([{ severity := .medium, category := .analysis,
          message := "Failed to analyze file: " ++ "Permission denied",
          filePath := "bad.py", lineNumber := 0 }], {}) ∧
     (CodeAnalyzer.analyze_paths {}
        [{ path := "bad.py", read := .error "Permission denied" },
         { path := "ok.py",
           read := .ok { lines := [], parsed := .ok (.module []), securityIssues := [],
                         aiMatches := [] } }]
        Severity.medium true 0 0).filesScanned = 2 ∧
     (∀ f ∈ [({ path := "bad.py", read := .error "Permission denied" } : SourceFile),
             { path := "ok.py",
               read := .ok { lines := [], parsed := .ok (.module []), securityIssues := [],
                             aiMatches := [] } }],
       (CodeAnalyzer.analyze_paths {}
          [{ path := "bad.py", read := .error "Permission denied" },
           { path := "ok.py",
             read := .ok { lines := [], parsed := .ok (.module []), securityIssues := [],
                           aiMatches := [] } }]
          Severity.medium true 0 0).fileScores.any (fun kv => kv.1 == f.path) = true)) :=
  ⟨rfl, c6_file_error_isolation {} true
    { path := "bad.py", read := .error "Permission denied" } "Permission denied" rfl
    [{ path := "bad.py", read := .error "Permission denied" },
     { path := "ok.py",
       read := .ok { lines := [], parsed := .ok (.module []), securityIssues := [],
                     aiMatches := [] } }]
    Severity.medium 0 0⟩

/-- Follows the words of claim C1: a pattern-based score that starts at 10
and loses 3 per critical, 2 per high and 1 per medium finding of the file
(low ignored), floored at 0; the final score is the minimum of this and the
structural complexity score. -/
def specC1FinalScore (issues : List Issue) (complexityScore : ℚ) : ℚ :=
  pyMin
    (pyMax 0 (10 - (countSev issues .critical : ℚ) * 3 - (countSev issues .high : ℚ) * 2 -
      (countSev issues .medium : ℚ) * 1))
    complexityScore

/-- The syntax tree of the C1 counterexample file: one function of
cyclomatic complexity 4 (three plain if statements). -/
def c1Ast : PyNode :=
  .module [.functionDef "f" 1 7 ["a"]
    [.ifStmt 2 (.name 2 "a" false) [.pass] [],
     .ifStmt 4 (.name 4 "a" false) [.pass] [],
     .ifStmt 6 (.name 6 "a" false) [.pass] []]]

/-- A Python file with one function of cyclomatic complexity 4, matching none
of the performance regex tables. -/
def c1File : PyFile :=
  { lines := ["def f(a):", "    if a:", "        pass", "    if a:", "        pass",
              "    if a:", "        pass"],
    parsed := .ok c1Ast }

/-- Helper for the C1 results: the analyzer final score in clamped-then-
deducted form on the counterexample file. -/
theorem c1_amended_helper :
    (PerformanceAnalyzer.analyze_file 2 "example.py" c1File).2 =
      pyMax 0 (pyMin 10 (PerformanceAnalyzer._analyze_python_ast 2 "example.py"
          c1File.parsed).2 -
        (countSev (PerformanceAnalyzer.analyze_file 2 "example.py" c1File).1 .critical : ℚ) * 3 -
        (countSev (PerformanceAnalyzer.analyze_file 2 "example.py" c1File).1 .high : ℚ) * 2 -
        (countSev (PerformanceAnalyzer.analyze_file 2 "example.py" c1File).1 .medium : ℚ) * 1) := by
  unfold PerformanceAnalyzer.analyze_file
  simp only [if_true]
  rfl

/-- C1 counterexample: with max complexity 2 this file gets analyzer score
67/10 (the structural score 87/10 is clamped into the running score before
the high finding subtracts 2), while the formula claimed by the spec, the
minimum of the deducted pattern score and the structural score, gives 8. -/
theorem c1_counterexample :
    (PerformanceAnalyzer.analyze_file 2 "example.py" c1File).2 = 67/10 ∧
    specC1FinalScore (PerformanceAnalyzer.analyze_file 2 "example.py" c1File).1
      (PerformanceAnalyzer._analyze_python_ast 2 "example.py" c1File.parsed).2 = 8 ∧
    (67/10 : ℚ) ≠ 8 := by
  have hsev : (perfComplexityIssue "example.py" 1 2 4).severity = .high := by
    have : ¬ ((4 : ℚ) ≤ (2 : ℚ) * 1.5) := by norm_num
    simp [perfComplexityIssue, this]
  have hiss : (PerformanceAnalyzer.analyze_file 2 "example.py" c1File).1 =
      [perfComplexityIssue "example.py" 1 2 4] := rfl
  have hcnt : ∀ sev : Severity,
      countSev [perfComplexityIssue "example.py" 1 2 4] sev =
        (if Severity.high = sev then 1 else 0) := by
    intro sev
    simp only [countSev, List.filter, hsev]
    cases sev <;> rfl
  have hc2 : (PerformanceAnalyzer._analyze_python_ast 2 "example.py" c1File.parsed).2 =
      (PerformanceASTVisitor.visit 2 "example.py" {} c1Ast).get_complexity_score 2 := rfl
  have hfc : (PerformanceASTVisitor.visit 2 "example.py" {} c1Ast).functionComplexities =
      [4] := rfl
  have hscore : (PerformanceAnalyzer._analyze_python_ast 2 "example.py" c1File.parsed).2 =
      87/10 := by
    rw [hc2]
    simp only [PerfState.get_complexity_score, hfc]
    norm_num [pyMax]
  have hfinal : (PerformanceAnalyzer.analyze_file 2 "example.py" c1File).2 =
      pyMax 0 (pyMin 10 (PerformanceAnalyzer._analyze_python_ast 2 "example.py"
          c1File.parsed).2 -
        (countSev (PerformanceAnalyzer.analyze_file 2 "example.py" c1File).1 .critical : ℚ) * 3 -
        (countSev (PerformanceAnalyzer.analyze_file 2 "example.py" c1File).1 .high : ℚ) * 2 -
        (countSev (PerformanceAnalyzer.analyze_file 2 "example.py" c1File).1 .medium : ℚ) * 1) :=
    c1_amended_helper
  have hnm : Severity.high ≠ Severity.medium := by decide
  have hnc : Severity.high ≠ Severity.critical := by decide
  refine ⟨?_, ?_, by norm_num⟩
  · rw [hfinal, hiss, hscore]
    rw [hcnt, hcnt, hcnt]
    norm_num [pyMax, pyMin, hnm, hnc]
  · rw [hiss, hscore]
    unfold specC1FinalScore
    rw [hcnt, hcnt, hcnt]
    norm_num [pyMax, pyMin, hnm, hnc]

/-- C1 amended: for every Python file the performance analyzer returns the
score max(0, min(10, structural complexity score) minus 3 per critical, 2 per
high and 1 per medium finding of the file): the clamp by the structural score
happens before the severity deductions, not after, and the deductions count
all findings of the file, pattern-based and structural alike. -/
theorem c1_amended_final_score (maxC : Nat) (fp : String) (f : PyFile)
    (h : pyEndsWith fp ".py" = true) :
    (PerformanceAnalyzer.analyze_file maxC fp f).2 =
      pyMax 0 (pyMin 10 (PerformanceAnalyzer._analyze_python_ast maxC fp f.parsed).2 -
        (countSev (PerformanceAnalyzer.analyze_file maxC fp f).1 .critical : ℚ) * 3 -
        (countSev (PerformanceAnalyzer.analyze_file maxC fp f).1 .high : ℚ) * 2 -
        (countSev (PerformanceAnalyzer.analyze_file maxC fp f).1 .medium : ℚ) * 1) := by
  unfold PerformanceAnalyzer.analyze_file
  simp only [h, if_true]

/-- Witness for C1 amended at the counterexample file. -/
theorem c1_amended_final_score_witness :
    (pyEndsWith "example.py" ".py") = true ∧
    (PerformanceAnalyzer.analyze_file 2 "example.py" c1File).2 =
      pyMax 0 (pyMin 10 (PerformanceAnalyzer._analyze_python_ast 2 "example.py" c1File.parsed).2 -
        (countSev (PerformanceAnalyzer.analyze_file 2 "example.py" c1File).1 .critical : ℚ) * 3 -
        (countSev (PerformanceAnalyzer.analyze_file 2 "example.py" c1File).1 .high : ℚ) * 2 -
        (countSev (PerformanceAnalyzer.analyze_file 2 "example.py" c1File).1 .medium : ℚ) * 1) :=
  ⟨rfl, c1_amended_final_score 2 "example.py" c1File rfl⟩

/-- C3: for every Python file the maintainability score is max(0, min(10,
structural score) minus 2 per critical, 1.5 per high, 1 per medium and 0.5
per low finding emitted for the file); a syntax error during the structural
parse adds exactly one high finding and forces the structural score to 5,
while any other structural failure adds exactly one low finding and leaves
the structural score at its default 10. -/
theorem c3_maintainability_score (maxC maxLen maxMethods : Nat) (fp : String)
    (f : PyFile) (h : pyEndsWith fp ".py" = true) :
    ((MaintainabilityScorer.score_file maxC maxLen maxMethods fp f).2 =
      pyMax 0
        (pyMin 10 (MaintainabilityScorer._analyze_python_structure maxC maxLen maxMethods fp
            f.parsed).2 -
          (countSev (MaintainabilityScorer.score_file maxC maxLen maxMethods fp f).1
            .critical : ℚ) * 2 -
          (countSev (MaintainabilityScorer.score_file maxC maxLen maxMethods fp f).1
            .high : ℚ) * 1.5 -
          (countSev (MaintainabilityScorer.score_file maxC maxLen maxMethods fp f).1
            .medium : ℚ) * 1 -
          (countSev (MaintainabilityScorer.score_file maxC maxLen maxMethods fp f).1
            .low : ℚ) * 0.5)) ∧
    (f.parsed = .error .synErr →
      (MaintainabilityScorer.score_file maxC maxLen maxMethods fp f).1 =
        MaintainabilityScorer._analyze_patterns fp f.lines ++ [synErrIssue fp] ∧
      (MaintainabilityScorer._analyze_python_structure maxC maxLen maxMethods fp
        f.parsed).2 = 5 ∧
      (synErrIssue fp).severity = .high ∧
      (synErrIssue fp).category = .maintainability) ∧
    (∀ msg, f.parsed = .error (.otherErr msg) →
      (MaintainabilityScorer.score_file maxC maxLen maxMethods fp f).1 =
        MaintainabilityScorer._analyze_patterns fp f.lines ++ [analysisErrorIssue fp msg] ∧
      (MaintainabilityScorer._analyze_python_structure maxC maxLen maxMethods fp
        f.parsed).2 = 10 ∧
      (analysisErrorIssue fp msg).severity = .low ∧
      (analysisErrorIssue fp msg).category = .maintainability) := by
  refine ⟨?_, ?_, ?_⟩
  · unfold MaintainabilityScorer.score_file
    simp only [h, if_true]
  · intro hp
    unfold MaintainabilityScorer.score_file
    rw [hp]
    simp only [h, if_true]
    exact ⟨rfl, rfl, rfl, rfl⟩
  · intro msg hp
    unfold MaintainabilityScorer.score_file
    rw [hp]
    simp only [h, if_true]
    exact ⟨rfl, rfl, rfl, rfl⟩

/-- Witness for C3 at a concrete Python file whose parse raises a syntax
error. -/
theorem c3_maintainability_score_witness :
    (pyEndsWith "broken.py" ".py") = true ∧
    (MaintainabilityScorer.score_file 10 50 20 "broken.py"
        { lines := ["x = ("], parsed := .error .synErr }).2 =
      pyMax 0
        (pyMin 10 (MaintainabilityScorer._analyze_python_structure 10 50 20 "broken.py"
            (Except.error ParseErr.synErr)).2 -
          (countSev (MaintainabilityScorer.score_file 10 50 20 "broken.py"
            { lines := ["x = ("], parsed := .error .synErr }).1 .critical : ℚ) * 2 -
          (countSev (MaintainabilityScorer.score_file 10 50 20 "broken.py"
            { lines := ["x = ("], parsed := .error .synErr }).1 .high : ℚ) * 1.5 -
          (countSev (MaintainabilityScorer.score_file 10 50 20 "broken.py"
            { lines := ["x = ("], parsed := .error .synErr }).1 .medium : ℚ) * 1 -
          (countSev (MaintainabilityScorer.score_file 10 50 20 "broken.py"
            { lines := ["x = ("], parsed := .error .synErr }).1 .low : ℚ) * 0.5) :=
  ⟨rfl, (c3_maintainability_score 10 50 20 "broken.py"
    { lines := ["x = ("], parsed := .error .synErr } rfl).1⟩

/-- Follows the words of claim C8: the part of a line before its first hash
mark, that is, excluding any trailing comment. -/
def beforeComment (line : String) : String :=
  String.mk (line.toList.takeWhile (fun c => c != '#'))

/-- Follows the words of claim C8: the line contains a bare integer of at
least two digits that is not itself inside the trailing comment, and the
line is not a function-definition line. -/
def specC8MagicLine (line : String) : Bool :=
  hasMagicNumber (beforeComment line) && !containsSub "def " line

/-- C8 counterexample: on the line of code x = 42 followed by a comment that
mentions a digit, the code emits no magic-number finding, although the
claimed condition holds: the bare integer 42 sits in the code part, outside
the trailing comment, and the line is no definition line. -/
theorem c8_counterexample :
    (MaintainabilityScorer._analyze_patterns "app.py" ["x = 42 # step 1"]).filter
      (fun i => i.ruleId == "maintainability.magic_number") = [] ∧
    specC8MagicLine "x = 42 # step 1" = true :=
  ⟨rfl, rfl⟩

/-- One step of enumerate(lines, n). -/
theorem enumFrom_cons_eq (n : Nat) (l : String) (ls : List String) :
    List.enumFrom n (l :: ls) = (n, l) :: List.enumFrom (n + 1) ls := rfl

/-- The magic-number findings among the per-line checks of one line: exactly
one finding when the magic-number branch of maintainability.py lines 78-89
fires, none otherwise. -/
theorem filter_lineIssues (fp : String) (ln : Nat) (line : String) :
    (MaintainabilityScorer.lineIssues fp ln line).filter
      (fun i => i.ruleId == "maintainability.magic_number") =
    (if hasMagicNumber line && !containsSub "def " line && !digitAfterHash line.toList then
      [MaintainabilityScorer.magicNumberIssue fp ln] else []) := by
  unfold MaintainabilityScorer.lineIssues
  rw [List.filter_append, List.filter_append, List.filter_append, List.filter_append]
  simp only [apply_ite
      (List.filter (fun i : Issue => i.ruleId == "maintainability.magic_number")),
    List.filter_cons, List.filter_nil]
  simp [MaintainabilityScorer.longLineIssue, MaintainabilityScorer.paramsLineIssue,
    MaintainabilityScorer.magicNumberIssue, MaintainabilityScorer.todoCommentIssue,
    MaintainabilityScorer.deepNestingIssue]

/-- The magic-number findings of the pattern analysis of a list of lines
numbered from n. -/
theorem filter_magic_enumFrom (fp : String) : ∀ (lines : List String) (n : Nat),
    ((List.enumFrom n lines).flatMap
      (fun p => MaintainabilityScorer.lineIssues fp p.1 p.2)).filter
        (fun i => i.ruleId == "maintainability.magic_number") =
    (List.enumFrom n lines).flatMap (fun p =>
      if hasMagicNumber p.2 && !containsSub "def " p.2 && !digitAfterHash p.2.toList then
        [MaintainabilityScorer.magicNumberIssue fp p.1] else []) := by
  intro lines
  induction lines with
  | nil => intro n; rfl
  | cons l ls ih =>
    intro n
    rw [enumFrom_cons_eq, List.flatMap_cons, List.flatMap_cons, List.filter_append,
      filter_lineIssues, ih]

/-- C8 amended: the maintainability pattern analysis emits a low-severity
magic-number finding for a line exactly when the line contains a bare integer
of at least two digits, the substring def-plus-space does not occur anywhere
in the line, and no digit occurs after a hash mark anywhere in the line; in
particular a line is skipped whenever its trailing comment contains any
digit, even when the matched integer itself is outside the comment. -/
theorem c8_amended_magic_number (fp : String) (lines : List String) :
    (MaintainabilityScorer._analyze_patterns fp lines).filter
      (fun i => i.ruleId == "maintainability.magic_number") =
    (List.enumFrom 1 lines).flatMap (fun p =>
      if hasMagicNumber p.2 && !containsSub "def " p.2 && !digitAfterHash p.2.toList then
        [MaintainabilityScorer.magicNumberIssue fp p.1] else []) := by
  unfold MaintainabilityScorer._analyze_patterns
  exact filter_magic_enumFrom fp lines 1

mutual

/-- True when a node contains no boolean-operator chain anywhere inside
(the only complexity rule on which the two visitors differ). -/
def noBoolOpN : PyNode → Bool
  | .module body => noBoolOpL body
  | .functionDef _ _ _ _ body => noBoolOpL body
  | .classDef _ _ body => noBoolOpL body
  | .forStmt _ target iterE body => noBoolOpN target && noBoolOpN iterE && noBoolOpL body
  | .whileStmt _ test body => noBoolOpN test && noBoolOpL body
  | .ifStmt _ test body orelse => noBoolOpN test && noBoolOpL body && noBoolOpL orelse
  | .tryStmt _ body handlers finalBody =>
    noBoolOpL body && noBoolOpL handlers && noBoolOpL finalBody
  | .withStmt _ ctxExpr body => noBoolOpN ctxExpr && noBoolOpL body
  | .assign _ targets value => noBoolOpL targets && noBoolOpN value
  | .ret _ (some e) => noBoolOpN e
  | .ret _ none => true
  | .exprStmt value => noBoolOpN value
  | .pass => true
  | .name _ _ _ => true
  | .attrExpr _ value _ => noBoolOpN value
  | .call _ f args => noBoolOpN f && noBoolOpL args
  | .boolOp _ _ => false
  | .listComp _ elt genIters => noBoolOpN elt && noBoolOpL genIters
  | .constStr _ => true
  | .constInt _ => true

/-- List version of noBoolOpN. -/
def noBoolOpL : List PyNode → Bool
  | [] => true
  | n :: ns => noBoolOpN n && noBoolOpL ns

end

/-- The syntax tree of the C4 counterexample: one function whose only branch
condition is a two-operand boolean-operator chain. -/
def c4Ast : PyNode :=
  .module [.functionDef "f" 1 3 ["a", "b"]
    [.ifStmt 2 (.boolOp 2 [.name 2 "a" false, .name 2 "b" false]) [.pass] []]]

/-- C4 counterexample: on a function guarded by a two-operand boolean chain
the performance visitor accumulates complexity 2 while the maintainability
visitor accumulates 3, because only the latter has a boolean-operator
increment. -/
theorem c4_counterexample :
    (PerformanceASTVisitor.visit 10 "b.py" {} c4Ast).functionComplexities = [2] ∧
    (MaintainabilityASTVisitor.visit 10 50 20 "b.py" {} c4Ast).functionComplexities = [3] ∧
    ([2] : List Nat) ≠ [3] :=
  ⟨rfl, rfl, by decide⟩

mutual

/-- On nodes without boolean-operator chains the two visitors evolve the
complexity counter and the per-function complexity list identically,
whatever their thresholds, paths and remaining state. -/
theorem agreeVisitN (pC mC mL mM : Nat) (fpP fpM : String) :
    ∀ (n : PyNode) (ps : PerfState) (ms : MaintState),
      noBoolOpN n = true →
      ps.currentComplexity = ms.currentComplexity →
      ps.functionComplexities = ms.functionComplexities →
      (PerformanceASTVisitor.visit pC fpP ps n).currentComplexity =
          (MaintainabilityASTVisitor.visit mC mL mM fpM ms n).currentComplexity ∧
        (PerformanceASTVisitor.visit pC fpP ps n).functionComplexities =
          (MaintainabilityASTVisitor.visit mC mL mM fpM ms n).functionComplexities
  | .module body, ps, ms, hn, hc, hf => by
    simp only [noBoolOpN] at hn
    exact agreeVisitL pC mC mL mM fpP fpM body ps ms hn hc hf
  | .functionDef nm ln el args body, ps, ms, hn, hc, hf => by
    simp only [noBoolOpN] at hn
    obtain ⟨h1, h2⟩ := agreeVisitL pC mC mL mM fpP fpM body
      { ps with currentComplexity := 1 }
      { ms with
          issues := ms.issues ++
            (if !isSnakeCase nm && !nm.startsWith "__" then [functionNamingIssue fpM ln nm]
             else []) ++
            (if (mL : Int) < (el : Int) - (ln : Int) then
              [longFunctionIssue fpM ln ((el : Int) - (ln : Int))] else []) ++
            (if 5 < args.length then [tooManyParamsIssue fpM ln args.length] else []) ++
            (if 5 < (el : Int) - (ln : Int) && !hasDocstring body && !nm.startsWith "_" then
              [functionDocstringIssue fpM ln nm] else []),
          functionNames := ms.functionNames ++ [nm],
          functionLengths := ms.functionLengths ++ [(el : Int) - (ln : Int)],
          currentComplexity := 1 }
      hn rfl hf
    simp only [PerformanceASTVisitor.visit, MaintainabilityASTVisitor.visit]
    exact ⟨hc, by rw [h1, h2]⟩
  | .classDef nm ln body, ps, ms, hn, hc, hf => by
    simp only [noBoolOpN] at hn
    exact agreeVisitL pC mC mL mM fpP fpM body ps
      { ms with
          issues := ms.issues ++
            (if !isPascalCase nm then [classNamingIssue fpM ln nm] else []) ++
            (if mM < (body.filter isFunctionDefNode).length then
              [tooManyMethodsIssue fpM ln (body.filter isFunctionDefNode).length] else []) ++
            (if !hasDocstring body then [classDocstringIssue fpM ln nm] else []),
          classNames := ms.classNames ++ [nm],
          classMethodCounts := ms.classMethodCounts ++ [(body.filter isFunctionDefNode).length] }
      hn hc hf
  | .forStmt ln target iterE body, ps, ms, hn, hc, hf => by
    simp only [noBoolOpN, Bool.and_eq_true] at hn
    obtain ⟨⟨hn1, hn2⟩, hn3⟩ := hn
    obtain ⟨h1, h2⟩ := agreeVisitN pC mC mL mM fpP fpM target
      { ps with
          currentComplexity := ps.currentComplexity + 1,
          nestedLoops := ps.nestedLoops + 1,
          issues := (ps.issues ++
            (if 2 < ps.nestedLoops + 1 then [perfNestedLoopsIssue fpP ln (ps.nestedLoops + 1)]
             else [])) ++
            (if isRangeLen iterE then [perfRangeLenIssue fpP ln] else []) }
      { ms with currentComplexity := ms.currentComplexity + 1 }
      hn1 (by simp [hc]) hf
    obtain ⟨h3, h4⟩ := agreeVisitN pC mC mL mM fpP fpM iterE _ _ hn2 h1 h2
    obtain ⟨h5, h6⟩ := agreeVisitL pC mC mL mM fpP fpM body _ _ hn3 h3 h4
    exact ⟨h5, h6⟩
  | .whileStmt ln test body, ps, ms, hn, hc, hf => by
    simp only [noBoolOpN, Bool.and_eq_true] at hn
    obtain ⟨hn1, hn2⟩ := hn
    obtain ⟨h1, h2⟩ := agreeVisitN pC mC mL mM fpP fpM test
      { ps with
          currentComplexity := ps.currentComplexity + 1,
          nestedLoops := ps.nestedLoops + 1 }
      { ms with currentComplexity := ms.currentComplexity + 1 }
      hn1 (by simp [hc]) hf
    obtain ⟨h3, h4⟩ := agreeVisitL pC mC mL mM fpP fpM body _ _ hn2 h1 h2
    exact ⟨h3, h4⟩
  | .ifStmt ln test body orelse, ps, ms, hn, hc, hf => by
    simp only [noBoolOpN, Bool.and_eq_true] at hn
    obtain ⟨⟨hn1, hn2⟩, hn3⟩ := hn
    obtain ⟨h1, h2⟩ := agreeVisitN pC mC mL mM fpP fpM test
      { ps with currentComplexity := ps.currentComplexity + 1 }
      { ms with currentComplexity := ms.currentComplexity + 1 }
      hn1 (by simp [hc]) hf
    obtain ⟨h3, h4⟩ := agreeVisitL pC mC mL mM fpP fpM body _ _ hn2 h1 h2
    obtain ⟨h5, h6⟩ := agreeVisitL pC mC mL mM fpP fpM orelse _ _ hn3 h3 h4
    exact ⟨h5, h6⟩
  | .tryStmt ln body handlers finalBody, ps, ms, hn, hc, hf => by
    simp only [noBoolOpN, Bool.and_eq_true] at hn
    obtain ⟨⟨hn1, hn2⟩, hn3⟩ := hn
    obtain ⟨h1, h2⟩ := agreeVisitL pC mC mL mM fpP fpM body
      { ps with currentComplexity := ps.currentComplexity + 1 }
      { ms with currentComplexity := ms.currentComplexity + 1 }
      hn1 (by simp [hc]) hf
    obtain ⟨h3, h4⟩ := agreeVisitL pC mC mL mM fpP fpM handlers _ _ hn2 h1 h2
    obtain ⟨h5, h6⟩ := agreeVisitL pC mC mL mM fpP fpM finalBody _ _ hn3 h3 h4
    exact ⟨h5, h6⟩
  | .withStmt ln ctxExpr body, ps, ms, hn, hc, hf => by
    simp only [noBoolOpN, Bool.and_eq_true] at hn
    obtain ⟨hn1, hn2⟩ := hn
    obtain ⟨h1, h2⟩ := agreeVisitN pC mC mL mM fpP fpM ctxExpr
      { ps with currentComplexity := ps.currentComplexity + 1 }
      { ms with currentComplexity := ms.currentComplexity + 1 }
      hn1 (by simp [hc]) hf
    obtain ⟨h3, h4⟩ := agreeVisitL pC mC mL mM fpP fpM body _ _ hn2 h1 h2
    exact ⟨h3, h4⟩
  | .assign ln targets value, ps, ms, hn, hc, hf => by
    simp only [noBoolOpN, Bool.and_eq_true] at hn
    obtain ⟨hn1, hn2⟩ := hn
    obtain ⟨h1, h2⟩ := agreeVisitL pC mC mL mM fpP fpM targets ps ms hn1 hc hf
    obtain ⟨h3, h4⟩ := agreeVisitN pC mC mL mM fpP fpM value _ _ hn2 h1 h2
    exact ⟨h3, h4⟩
  | .ret ln (some e), ps, ms, hn, hc, hf => by
    simp only [noBoolOpN] at hn
    exact agreeVisitN pC mC mL mM fpP fpM e ps ms hn hc hf
  | .ret ln none, ps, ms, hn, hc, hf => ⟨hc, hf⟩
  | .exprStmt value, ps, ms, hn, hc, hf => by
    simp only [noBoolOpN] at hn
    exact agreeVisitN pC mC mL mM fpP fpM value ps ms hn hc hf
  | .pass, ps, ms, hn, hc, hf => ⟨hc, hf⟩
  | .name ln nm st, ps, ms, hn, hc, hf => by
    cases st
    · exact ⟨hc, hf⟩
    · exact ⟨hc, hf⟩
  | .attrExpr ln value attrName, ps, ms, hn, hc, hf => by
    simp only [noBoolOpN] at hn
    exact agreeVisitN pC mC mL mM fpP fpM value ps ms hn hc hf
  | .call ln f args, ps, ms, hn, hc, hf => by
    simp only [noBoolOpN, Bool.and_eq_true] at hn
    obtain ⟨hn1, hn2⟩ := hn
    obtain ⟨h1, h2⟩ := agreeVisitN pC mC mL mM fpP fpM f
      { ps with
          issues := ps.issues ++
            (if isAppendAttr f && 0 < ps.nestedLoops then [perfAppendIssue fpP ln] else []) }
      ms hn1 hc hf
    obtain ⟨h3, h4⟩ := agreeVisitL pC mC mL mM fpP fpM args _ _ hn2 h1 h2
    exact ⟨h3, h4⟩
  | .boolOp ln values, ps, ms, hn, hc, hf => by
    simp only [noBoolOpN] at hn
    exact Bool.noConfusion hn
  | .listComp ln elt genIters, ps, ms, hn, hc, hf => by
    simp only [noBoolOpN, Bool.and_eq_true] at hn
    obtain ⟨hn1, hn2⟩ := hn
    obtain ⟨h1, h2⟩ := agreeVisitN pC mC mL mM fpP fpM elt
      { ps with
          issues := ps.issues ++
            (if genIters.any isCompNode then [perfNestedCompIssue fpP ln] else []) }
      ms hn1 hc hf
    obtain ⟨h3, h4⟩ := agreeVisitL pC mC mL mM fpP fpM genIters _ _ hn2 h1 h2
    exact ⟨h3, h4⟩
  | .constStr s, ps, ms, hn, hc, hf => ⟨hc, hf⟩
  | .constInt n, ps, ms, hn, hc, hf => ⟨hc, hf⟩

/-- List version of agreeVisitN. -/
theorem agreeVisitL (pC mC mL mM : Nat) (fpP fpM : String) :
    ∀ (l : List PyNode) (ps : PerfState) (ms : MaintState),
      noBoolOpL l = true →
      ps.currentComplexity = ms.currentComplexity →
      ps.functionComplexities = ms.functionComplexities →
      (PerformanceASTVisitor.visitList pC fpP ps l).currentComplexity =
          (MaintainabilityASTVisitor.visitList mC mL mM fpM ms l).currentComplexity ∧
        (PerformanceASTVisitor.visitList pC fpP ps l).functionComplexities =
          (MaintainabilityASTVisitor.visitList mC mL mM fpM ms l).functionComplexities
  | [], ps, ms, hn, hc, hf => ⟨hc, hf⟩
  | n :: ns, ps, ms, hn, hc, hf => by
    simp only [noBoolOpL, Bool.and_eq_true] at hn
    obtain ⟨hn1, hn2⟩ := hn
    obtain ⟨h1, h2⟩ := agreeVisitN pC mC mL mM fpP fpM n ps ms hn1 hc hf
    obtain ⟨h3, h4⟩ := agreeVisitL pC mC mL mM fpP fpM ns _ _ hn2 h1 h2
    exact ⟨h3, h4⟩

end

/-- C4 amended: the two structural visitors use the same complexity
increments for conditionals, loops, exception handlers and context managers,
but only the maintainability visitor additionally increments for
boolean-operator chains (by operand count minus one); hence on every Python
function tree without boolean-operator chains the per-function complexity
values accumulated by the two visitors coincide. -/
theorem c4_amended_complexity_agreement (pC mC mL mM : Nat) (fpP fpM : String)
    (tree : PyNode) (hn : noBoolOpN tree = true) :
    (PerformanceASTVisitor.visit pC fpP {} tree).functionComplexities =
      (MaintainabilityASTVisitor.visit mC mL mM fpM {} tree).functionComplexities :=
  (agreeVisitN pC mC mL mM fpP fpM tree {} {} hn rfl rfl).2

/-- Witness for C4 amended at a one-function tree without boolean
chains. -/
theorem c4_amended_complexity_agreement_witness :
    noBoolOpN (.module [.functionDef "g" 1 3 []
      [.ifStmt 2 (.name 2 "a" false) [.pass] []]]) = true ∧
    (PerformanceASTVisitor.visit 10 "w.py" {}
      (.module [.functionDef "g" 1 3 []
        [.ifStmt 2 (.name 2 "a" false) [.pass] []]])).functionComplexities =
      (MaintainabilityASTVisitor.visit 10 50 20 "w.py" {}
        (.module [.functionDef "g" 1 3 []
          [.ifStmt 2 (.name 2 "a" false) [.pass] []]])).functionComplexities :=
  ⟨rfl, c4_amended_complexity_agreement 10 10 50 20 "w.py" "w.py" _ rfl⟩

mutual

/-- Follows the words of claim C9: the number of loops, for and while alike,
entered while the loop-nesting depth exceeds 2, for a traversal starting at
the given depth (function boundaries do not reset the depth, as in the
visitor). -/
def specDeepLoopEntriesN (depth : Nat) : PyNode → Nat
  | .module body => specDeepLoopEntriesL depth body
  | .functionDef _ _ _ _ body => specDeepLoopEntriesL depth body
  | .classDef _ _ body => specDeepLoopEntriesL depth body
  | .forStmt _ target iterE body =>
    (if 2 < depth + 1 then 1 else 0) + specDeepLoopEntriesN (depth + 1) target +
      specDeepLoopEntriesN (depth + 1) iterE + specDeepLoopEntriesL (depth + 1) body
  | .whileStmt _ test body =>
    (if 2 < depth + 1 then 1 else 0) + specDeepLoopEntriesN (depth + 1) test +
      specDeepLoopEntriesL (depth + 1) body
  | .ifStmt _ test body orelse =>
    specDeepLoopEntriesN depth test + specDeepLoopEntriesL depth body +
      specDeepLoopEntriesL depth orelse
  | .tryStmt _ body handlers finalBody =>
    specDeepLoopEntriesL depth body + specDeepLoopEntriesL depth handlers +
      specDeepLoopEntriesL depth finalBody
  | .withStmt _ ctxExpr body =>
    specDeepLoopEntriesN depth ctxExpr + specDeepLoopEntriesL depth body
  | .assign _ targets value =>
    specDeepLoopEntriesL depth targets + specDeepLoopEntriesN depth value
  | .ret _ (some e) => specDeepLoopEntriesN depth e
  | .ret _ none => 0
  | .exprStmt value => specDeepLoopEntriesN depth value
  | .pass => 0
  | .name _ _ _ => 0
  | .attrExpr _ value _ => specDeepLoopEntriesN depth value
  | .call _ f args => specDeepLoopEntriesN depth f + specDeepLoopEntriesL depth args
  | .boolOp _ values => specDeepLoopEntriesL depth values
  | .listComp _ elt genIters =>
    specDeepLoopEntriesN depth elt + specDeepLoopEntriesL depth genIters
  | .constStr _ => 0
  | .constInt _ => 0

/-- List version of specDeepLoopEntriesN. -/
def specDeepLoopEntriesL (depth : Nat) : List PyNode → Nat
  | [] => 0
  | n :: ns => specDeepLoopEntriesN depth n + specDeepLoopEntriesL depth ns

end

/-- The syntax tree of the C9 counterexample: a while loop nested inside two
for loops, so the while loop is entered at loop-nesting depth 3. -/
def c9Ast : PyNode :=
  .module [.forStmt 1 (.name 1 "i" true) (.name 1 "xs" false)
    [.forStmt 2 (.name 2 "j" true) (.name 2 "ys" false)
      [.whileStmt 3 (.name 3 "c" false) [.pass]]]]

/-- The filter selecting the deeply-nested-loops findings. -/
def isNestedLoopsIssue (i : Issue) : Bool :=
  i.ruleId == "performance.nested_loops"

/-- C9 counterexample: one loop of this tree, the while loop, is entered at
depth 3, yet the visitor emits no deeply-nested-loops finding at all, because
only the for-loop visit carries the depth check. -/
theorem c9_counterexample :
    ((PerformanceASTVisitor.visit 10 "loops.py" {} c9Ast).issues.filter
      isNestedLoopsIssue).length = 0 ∧
    specDeepLoopEntriesN 0 c9Ast = 1 ∧
    (0 : Nat) ≠ 1 :=
  ⟨rfl, rfl, by decide⟩

mutual

/-- The deeply-nested-loops findings the performance visitor emits below a
node, traversed from the given loop-nesting depth: both loop kinds deepen
the depth, but only entering a for loop at depth above 2 emits a finding,
with the depth recorded in the message. -/
def deepLoopIssuesN (fp : String) (depth : Nat) : PyNode → List Issue
  | .module body => deepLoopIssuesL fp depth body
  | .functionDef _ _ _ _ body => deepLoopIssuesL fp depth body
  | .classDef _ _ body => deepLoopIssuesL fp depth body
  | .forStmt ln target iterE body =>
    (if 2 < depth + 1 then [perfNestedLoopsIssue fp ln (depth + 1)] else []) ++
      deepLoopIssuesN fp (depth + 1) target ++ deepLoopIssuesN fp (depth + 1) iterE ++
      deepLoopIssuesL fp (depth + 1) body
  | .whileStmt _ test body =>
    deepLoopIssuesN fp (depth + 1) test ++ deepLoopIssuesL fp (depth + 1) body
  | .ifStmt _ test body orelse =>
    deepLoopIssuesN fp depth test ++ deepLoopIssuesL fp depth body ++
      deepLoopIssuesL fp depth orelse
  | .tryStmt _ body handlers finalBody =>
    deepLoopIssuesL fp depth body ++ deepLoopIssuesL fp depth handlers ++
      deepLoopIssuesL fp depth finalBody
  | .withStmt _ ctxExpr body =>
    deepLoopIssuesN fp depth ctxExpr ++ deepLoopIssuesL fp depth body
  | .assign _ targets value =>
    deepLoopIssuesL fp depth targets ++ deepLoopIssuesN fp depth value
  | .ret _ (some e) => deepLoopIssuesN fp depth e
  | .ret _ none => []
  | .exprStmt value => deepLoopIssuesN fp depth value
  | .pass => []
  | .name _ _ _ => []
  | .attrExpr _ value _ => deepLoopIssuesN fp depth value
  | .call _ f args => deepLoopIssuesN fp depth f ++ deepLoopIssuesL fp depth args
  | .boolOp _ values => deepLoopIssuesL fp depth values
  | .listComp _ elt genIters =>
    deepLoopIssuesN fp depth elt ++ deepLoopIssuesL fp depth genIters
  | .constStr _ => []
  | .constInt _ => []

/-- List version of deepLoopIssuesN. -/
def deepLoopIssuesL (fp : String) (depth : Nat) : List PyNode → List Issue
  | [] => []
  | n :: ns => deepLoopIssuesN fp depth n ++ deepLoopIssuesL fp depth ns

end

/-- The complexity finding never passes the nested-loops filter. -/
@[simp] theorem filter_nl_complexity (c : Prop) [Decidable c] (fp : String) (ln m k : Nat) :
    (if c then [perfComplexityIssue fp ln m k] else []).filter isNestedLoopsIssue = [] := by
  split <;> rfl

/-- The range-len finding never passes the nested-loops filter. -/
@[simp] theorem filter_nl_rangeLen (c : Prop) [Decidable c] (fp : String) (ln : Nat) :
    (if c then [perfRangeLenIssue fp ln] else []).filter isNestedLoopsIssue = [] := by
  split <;> rfl

/-- The append-in-loop finding never passes the nested-loops filter. -/
@[simp] theorem filter_nl_append (c : Prop) [Decidable c] (fp : String) (ln : Nat) :
    (if c then [perfAppendIssue fp ln] else []).filter isNestedLoopsIssue = [] := by
  split <;> rfl

/-- The nested-comprehension finding never passes the nested-loops filter. -/
@[simp] theorem filter_nl_comp (c : Prop) [Decidable c] (fp : String) (ln : Nat) :
    (if c then [perfNestedCompIssue fp ln] else []).filter isNestedLoopsIssue = [] := by
  split <;> rfl

/-- The deeply-nested-loops finding always passes the nested-loops filter. -/
@[simp] theorem filter_nl_nested (c : Prop) [Decidable c] (fp : String) (ln d : Nat) :
    (if c then [perfNestedLoopsIssue fp ln d] else []).filter isNestedLoopsIssue =
      if c then [perfNestedLoopsIssue fp ln d] else [] := by
  split <;> rfl

mutual

/-- The performance visitor preserves the loop-nesting counter across any
node, and its deeply-nested-loops findings below a node are exactly those of
deepLoopIssuesN at the depth the node is entered with. -/
theorem perfNestedN (maxC : Nat) (fp : String) :
    ∀ (s : PerfState) (n : PyNode),
      (PerformanceASTVisitor.visit maxC fp s n).nestedLoops = s.nestedLoops ∧
      (PerformanceASTVisitor.visit maxC fp s n).issues.filter isNestedLoopsIssue =
        s.issues.filter isNestedLoopsIssue ++ deepLoopIssuesN fp s.nestedLoops n
  | s, .module body => by
    simp only [PerformanceASTVisitor.visit, deepLoopIssuesN]
    exact perfNestedL maxC fp s body
  | s, .functionDef nm ln el args body => by
    simp only [PerformanceASTVisitor.visit, deepLoopIssuesN]
    constructor
    · rw [(perfNestedL maxC fp _ body).1]
    · rw [List.filter_append, filter_nl_complexity, List.append_nil,
        (perfNestedL maxC fp _ body).2]
  | s, .classDef nm ln body => by
    simp only [PerformanceASTVisitor.visit, deepLoopIssuesN]
    exact perfNestedL maxC fp s body
  | s, .forStmt ln target iterE body => by
    simp only [PerformanceASTVisitor.visit, deepLoopIssuesN]
    constructor
    · trivial
    · rw [(perfNestedL maxC fp _ body).2, (perfNestedN maxC fp _ iterE).2,
        (perfNestedN maxC fp _ target).2, (perfNestedN maxC fp _ iterE).1,
        (perfNestedN maxC fp _ target).1]
      simp only [List.filter_append, filter_nl_nested, filter_nl_rangeLen,
        List.append_nil, List.append_assoc]
  | s, .whileStmt ln test body => by
    simp only [PerformanceASTVisitor.visit, deepLoopIssuesN]
    constructor
    · rw [(perfNestedL maxC fp _ body).1, (perfNestedN maxC fp _ test).1]
      rfl
    · rw [(perfNestedL maxC fp _ body).2, (perfNestedN maxC fp _ test).2,
        (perfNestedN maxC fp _ test).1]
      simp only [List.append_assoc]
  | s, .ifStmt ln test body orelse => by
    simp only [PerformanceASTVisitor.visit, deepLoopIssuesN]
    constructor
    · rw [(perfNestedL maxC fp _ orelse).1, (perfNestedL maxC fp _ body).1,
        (perfNestedN maxC fp _ test).1]
    · rw [(perfNestedL maxC fp _ orelse).2, (perfNestedL maxC fp _ body).2,
        (perfNestedN maxC fp _ test).2, (perfNestedN maxC fp _ test).1,
        (perfNestedL maxC fp _ body).1, (perfNestedN maxC fp _ test).1]
      simp only [List.append_assoc]
  | s, .tryStmt ln body handlers finalBody => by
    simp only [PerformanceASTVisitor.visit, deepLoopIssuesN]
    constructor
    · rw [(perfNestedL maxC fp _ finalBody).1, (perfNestedL maxC fp _ handlers).1,
        (perfNestedL maxC fp _ body).1]
    · rw [(perfNestedL maxC fp _ finalBody).2, (perfNestedL maxC fp _ handlers).2,
        (perfNestedL maxC fp _ body).2, (perfNestedL maxC fp _ body).1,
        (perfNestedL maxC fp _ handlers).1, (perfNestedL maxC fp _ body).1]
      simp only [List.append_assoc]
  | s, .withStmt ln ctxExpr body => by
    simp only [PerformanceASTVisitor.visit, deepLoopIssuesN]
    constructor
    · rw [(perfNestedL maxC fp _ body).1, (perfNestedN maxC fp _ ctxExpr).1]
    · rw [(perfNestedL maxC fp _ body).2, (perfNestedN maxC fp _ ctxExpr).2,
        (perfNestedN maxC fp _ ctxExpr).1]
      simp only [List.append_assoc]
  | s, .assign ln targets value => by
    simp only [PerformanceASTVisitor.visit, deepLoopIssuesN]
    constructor
    · rw [(perfNestedN maxC fp _ value).1, (perfNestedL maxC fp _ targets).1]
    · rw [(perfNestedN maxC fp _ value).2, (perfNestedL maxC fp _ targets).2,
        (perfNestedL maxC fp _ targets).1]
      simp only [List.append_assoc]
  | s, .ret ln (some e) => by
    simp only [PerformanceASTVisitor.visit, deepLoopIssuesN]
    exact perfNestedN maxC fp s e
  | s, .ret ln none => by
    simp only [PerformanceASTVisitor.visit, deepLoopIssuesN]
    exact ⟨trivial, (List.append_nil _).symm⟩
  | s, .exprStmt value => by
    simp only [PerformanceASTVisitor.visit, deepLoopIssuesN]
    exact perfNestedN maxC fp s value
  | s, .pass => ⟨rfl, (List.append_nil _).symm⟩
  | s, .name ln nm st => ⟨rfl, (List.append_nil _).symm⟩
  | s, .attrExpr ln value attrName => by
    simp only [PerformanceASTVisitor.visit, deepLoopIssuesN]
    exact perfNestedN maxC fp s value
  | s, .call ln f args => by
    simp only [PerformanceASTVisitor.visit, deepLoopIssuesN]
    constructor
    · rw [(perfNestedL maxC fp _ args).1, (perfNestedN maxC fp _ f).1]
    · rw [(perfNestedL maxC fp _ args).2, (perfNestedN maxC fp _ f).2,
        (perfNestedN maxC fp _ f).1]
      simp only [List.filter_append, filter_nl_append, List.append_nil, List.append_assoc]
  | s, .boolOp ln values => by
    simp only [PerformanceASTVisitor.visit, deepLoopIssuesN]
    exact perfNestedL maxC fp s values
  | s, .listComp ln elt genIters => by
    simp only [PerformanceASTVisitor.visit, deepLoopIssuesN]
    constructor
    · rw [(perfNestedL maxC fp _ genIters).1, (perfNestedN maxC fp _ elt).1]
    · rw [(perfNestedL maxC fp _ genIters).2, (perfNestedN maxC fp _ elt).2,
        (perfNestedN maxC fp _ elt).1]
      simp only [List.filter_append, filter_nl_comp, List.append_nil, List.append_assoc]
  | s, .constStr c => ⟨rfl, (List.append_nil _).symm⟩
  | s, .constInt c => ⟨rfl, (List.append_nil _).symm⟩

/-- List version of perfNestedN. -/
theorem perfNestedL (maxC : Nat) (fp : String) :
    ∀ (s : PerfState) (l : List PyNode),
      (PerformanceASTVisitor.visitList maxC fp s l).nestedLoops = s.nestedLoops ∧
      (PerformanceASTVisitor.visitList maxC fp s l).issues.filter isNestedLoopsIssue =
        s.issues.filter isNestedLoopsIssue ++ deepLoopIssuesL fp s.nestedLoops l
  | s, [] => ⟨rfl, (List.append_nil _).symm⟩
  | s, n :: ns => by
    simp only [PerformanceASTVisitor.visitList, deepLoopIssuesL]
    constructor
    · rw [(perfNestedL maxC fp _ ns).1, (perfNestedN maxC fp _ n).1]
    · rw [(perfNestedL maxC fp _ ns).2, (perfNestedN maxC fp _ n).2,
        (perfNestedN maxC fp _ n).1]
      simp only [List.append_assoc]

end

/-- C9 amended: both for loops and while loops deepen the loop-nesting
counter, but the medium deeply-nested-loops finding is emitted exactly when a
for loop is entered at depth above 2; a while loop entered at any depth emits
none. -/
theorem c9_amended_nested_loop_findings (maxC : Nat) (fp : String) (tree : PyNode) :
    (PerformanceASTVisitor.visit maxC fp {} tree).issues.filter isNestedLoopsIssue =
      deepLoopIssuesN fp 0 tree :=
  (perfNestedN maxC fp {} tree).2

end CodeGuardian
